import Mathlib

/-!
Query translation and execution layer (aerospike_query.c)

A shallow embedding of `src/aerospike/src/main/aerospike/aerospike_query.c`:

* `as_query_toclquery` : translation of a query descriptor into a low-level
  request, the three sentinel-terminated walks included;
* `aerospike_query_init`, `aerospike_query_destroy` : the lifecycle guard over
  the process-wide counter `query_initialized`;
* `aerospike_query_foreach`, `aerospike_query_stream` : the two executors.

Conventions of the embedding.

* A C string pointer (`char *`) is an `Option String`: `none` is the NULL
  pointer, `some ""` is a non-NULL pointer to the empty string.
* A sentinel-terminated C array is the `List` of the entries that are in storage.
  A walk that reaches the end of the list without meeting its terminator reads
  past the storage; the embedding gives `none` for it.
* The low-level request `cl_query` is built only through the `cl_query_*`
  functions of the citrusleaf layer, which is not part of this file; the request
  is represented by the sequence of builder calls applied to it.
* State is passed explicitly: `World` holds the counter `query_initialized` and
  the record of calls made into the citrusleaf layer.
-/

namespace AerospikeQuery

/-! ## Data model -/

/-- Tag of a predicate clause (`p->type`). The switch of `as_query_toclquery` names three
enumerators; `other n` stands for any stored value that is none of them. -/
inductive as_predicate_type where
  | AS_PREDICATE_STRING_EQUAL
  | AS_PREDICATE_INTEGER_EQUAL
  | AS_PREDICATE_INTEGER_RANGE
  | other (tag : Nat)
  deriving DecidableEq, Repr

/-- Member `integer_range` of the predicate payload. -/
structure as_integer_range where
  min : Int
  max : Int
  deriving DecidableEq, Repr

/-- Payload of a predicate clause (`p->value`). The code reads the member that goes
with the tag (`value.string`, `value.integer`, `value.integer_range`); each member is
a field here. -/
structure as_predicate_value where
  string : Option String
  integer : Int
  integer_range : as_integer_range
  deriving DecidableEq, Repr

/-- Predicate clause (`as_predicate`): `bin` is the pointer tested by `while( p->bin )`. -/
structure as_predicate where
  bin : Option String
  type : as_predicate_type
  value : as_predicate_value
  deriving DecidableEq, Repr

/-- Order-by clause (`as_orderby`): `bin` is the pointer tested by `while( o->bin )`. -/
structure as_orderby where
  bin : Option String
  ascending : Bool
  deriving DecidableEq, Repr

/-- Value held by an argument list. -/
inductive as_val where
  | integer (i : Int)
  | string (s : String)
  deriving DecidableEq, Repr

/-- Aggregation reference (`query->apply`): two string pointers and the pointer to the
argument list. -/
structure as_udf_call where
  module : Option String
  function : Option String
  arglist : Option (List as_val)
  deriving DecidableEq, Repr

/-- Query descriptor (`as_query`). `namespace_` is the member `namespace`; `limit` is a
`uint64_t`; `select`, `predicates` and `orderby` are the stored entries of the three
sentinel-terminated arrays. -/
structure as_query where
  namespace_ : Option String
  set : Option String
  select : List (Option String)
  limit : Nat
  predicates : List as_predicate
  orderby : List as_orderby
  apply : as_udf_call
  deriving DecidableEq, Repr

/-- Largest value of a `uint64_t`, the "no limit" value of `query->limit`. -/
def UINT64_MAX : Nat := 2 ^ 64 - 1

/-! ## Low-level request -/

/-- Comparison operator passed to `cl_query_where`. -/
inductive cl_query_op where
  | CL_EQ
  | CL_RANGE
  deriving DecidableEq, Repr

/-- Value type passed to `cl_query_where`. -/
inductive cl_type where
  | CL_INT
  | CL_STR
  deriving DecidableEq, Repr

/-- Direction passed to `cl_query_orderby`. -/
inductive cl_query_orderby_op where
  | CL_ORDERBY_ASC
  | CL_ORDERBY_DESC
  deriving DecidableEq, Repr

/-- Trailing (variadic) argument of `cl_query_where`. -/
inductive cl_where_arg where
  | string (s : Option String)
  | integer (i : Int)
  deriving DecidableEq, Repr

/-- One builder call applied to a request, with its arguments. -/
inductive cl_query_call where
  | init (ns : Option String) (set : Option String)
  | limit (limit : Nat)
  | select (bin : String)
  | where_ (bin : String) (op : cl_query_op) (type : cl_type) (args : List cl_where_arg)
  | orderby (bin : String) (order : cl_query_orderby_op)
  | aggregate (module : String) (function : String) (arglist : Option (List as_val))
  deriving DecidableEq, Repr

/-- Low-level request: the builder calls applied to it, oldest first. -/
abbrev cl_query := List cl_query_call

/-- Call `cl_query_init(clquery, ns, set)`: the request starts afresh. -/
def cl_query_init (ns set : Option String) : cl_query :=
  [cl_query_call.init ns set]

/-- Call `cl_query_limit(clquery, limit)`. -/
def cl_query_limit (clquery : cl_query) (limit : Nat) : cl_query :=
  clquery ++ [cl_query_call.limit limit]

/-- Call `cl_query_select(clquery, bin)`. -/
def cl_query_select (clquery : cl_query) (bin : String) : cl_query :=
  clquery ++ [cl_query_call.select bin]

/-- Call `cl_query_where(clquery, bin, op, type, ...)`. -/
def cl_query_where (clquery : cl_query) (bin : String) (op : cl_query_op) (type : cl_type)
    (args : List cl_where_arg) : cl_query :=
  clquery ++ [cl_query_call.where_ bin op type args]

/-- Call `cl_query_orderby(clquery, bin, order)`. -/
def cl_query_orderby (clquery : cl_query) (bin : String) (order : cl_query_orderby_op) :
    cl_query :=
  clquery ++ [cl_query_call.orderby bin order]

/-- Call `cl_query_aggregate(clquery, module, function, arglist)`. -/
def cl_query_aggregate (clquery : cl_query) (module function : String)
    (arglist : Option (List as_val)) : cl_query :=
  clquery ++ [cl_query_call.aggregate module function arglist]

/-! ## Translation: `as_query_toclquery` -/

/-- Loop `while( *s != NULL ) { cl_query_select(clquery, *s); s++; }`. -/
def select_loop : List (Option String) → cl_query → Option cl_query
  | [], _ => none
  | none :: _, clquery => some clquery
  | some s :: rest, clquery => select_loop rest (cl_query_select clquery s)

/-- Statement `switch(p->type) { ... }` for a clause whose bin pointer is `bin`. There is
no `default` label. -/
def predicate_switch (clquery : cl_query) (p : as_predicate) (bin : String) : cl_query :=
  match p.type with
  | as_predicate_type.AS_PREDICATE_STRING_EQUAL =>
      cl_query_where clquery bin cl_query_op.CL_EQ cl_type.CL_STR
        [cl_where_arg.string p.value.string]
  | as_predicate_type.AS_PREDICATE_INTEGER_EQUAL =>
      cl_query_where clquery bin cl_query_op.CL_EQ cl_type.CL_INT
        [cl_where_arg.integer p.value.integer]
  | as_predicate_type.AS_PREDICATE_INTEGER_RANGE =>
      cl_query_where clquery bin cl_query_op.CL_RANGE cl_type.CL_INT
        [cl_where_arg.integer p.value.integer_range.min,
         cl_where_arg.integer p.value.integer_range.max]
  | as_predicate_type.other _ => clquery

/-- Loop `while( p->bin ) { switch(p->type) { ... } p++; }`. -/
def predicates_loop : List as_predicate → cl_query → Option cl_query
  | [], _ => none
  | p :: rest, clquery =>
    match p.bin with
    | none => some clquery
    | some bin => predicates_loop rest (predicate_switch clquery p bin)

/-- Loop `while( o->bin ) { cl_query_orderby(clquery, o->bin, ...); o++; }`. -/
def orderby_loop : List as_orderby → cl_query → Option cl_query
  | [], _ => none
  | o :: rest, clquery =>
    match o.bin with
    | none => some clquery
    | some bin =>
      orderby_loop rest
        (cl_query_orderby clquery bin
          (if o.ascending then cl_query_orderby_op.CL_ORDERBY_ASC
           else cl_query_orderby_op.CL_ORDERBY_DESC))

/-- Final statement `if ( query->apply.module && query->apply.function ) { ... }`. -/
def apply_step (clquery : cl_query) (apply : as_udf_call) : cl_query :=
  match apply.module, apply.function with
  | some module, some function => cl_query_aggregate clquery module function apply.arglist
  | _, _ => clquery

/-- Function `as_query_toclquery(query, clquery)`; the result is the request left in
`*clquery`, or `none` when a walk leaves its storage. -/
def as_query_toclquery (query : as_query) : Option cl_query :=
  let clquery := cl_query_init query.namespace_ query.set
  let clquery :=
    if query.limit ≠ UINT64_MAX then cl_query_limit clquery query.limit else clquery
  match select_loop query.select clquery with
  | none => none
  | some clquery =>
    match predicates_loop query.predicates clquery with
    | none => none
    | some clquery =>
      match orderby_loop query.orderby clquery with
      | none => none
      | some clquery => some (apply_step clquery query.apply)

/-! ## What a request carries

Selectors over the builder calls of a request. -/

/-- Filter of a request: the arguments of one `cl_query_where` call. -/
structure cl_filter where
  bin : String
  op : cl_query_op
  type : cl_type
  args : List cl_where_arg
  deriving DecidableEq, Repr

/-- Sort key of a request: the arguments of one `cl_query_orderby` call. -/
structure cl_sort_key where
  bin : String
  order : cl_query_orderby_op
  deriving DecidableEq, Repr

/-- Aggregation stage of a request: the arguments of one `cl_query_aggregate` call. -/
structure cl_aggregation where
  module : String
  function : String
  arglist : Option (List as_val)
  deriving DecidableEq, Repr

/-- Row limits set on the request (`cl_query_limit` calls), oldest first. -/
def request_limits (clquery : cl_query) : List Nat :=
  clquery.filterMap fun c =>
    match c with
    | cl_query_call.limit n => some n
    | _ => none

/-- Row limit in force on the request: the one set last, `none` when none was set. -/
def request_row_limit (clquery : cl_query) : Option Nat :=
  (request_limits clquery).getLast?

/-- Projection list of the request (`cl_query_select` calls), oldest first. -/
def request_projection (clquery : cl_query) : List String :=
  clquery.filterMap fun c =>
    match c with
    | cl_query_call.select bin => some bin
    | _ => none

/-- Filters of the request (`cl_query_where` calls), oldest first. -/
def request_filters (clquery : cl_query) : List cl_filter :=
  clquery.filterMap fun c =>
    match c with
    | cl_query_call.where_ bin op type args => some ⟨bin, op, type, args⟩
    | _ => none

/-- Sort keys of the request (`cl_query_orderby` calls), oldest first. -/
def request_sort_keys (clquery : cl_query) : List cl_sort_key :=
  clquery.filterMap fun c =>
    match c with
    | cl_query_call.orderby bin order => some ⟨bin, order⟩
    | _ => none

/-- Aggregation stages attached to the request (`cl_query_aggregate` calls), oldest
first. -/
def request_aggregations (clquery : cl_query) : List cl_aggregation :=
  clquery.filterMap fun c =>
    match c with
    | cl_query_call.aggregate module function arglist => some ⟨module, function, arglist⟩
    | _ => none

/-- Aggregation stage in force on the request: the one attached last, `none` when none
was attached. -/
def request_aggregation (clquery : cl_query) : Option cl_aggregation :=
  (request_aggregations clquery).getLast?

/-! ## Well-formed descriptors -/

/-- Stored bin-selection entries contain the NULL entry that ends the walk. -/
def select_terminated (select : List (Option String)) : Bool :=
  select.any fun s => s.isNone

/-- Stored predicate clauses contain a clause with a NULL bin pointer. -/
def predicates_terminated (predicates : List as_predicate) : Bool :=
  predicates.any fun p => p.bin.isNone

/-- Stored order-by clauses contain a clause with a NULL bin pointer. -/
def orderby_terminated (orderby : List as_orderby) : Bool :=
  orderby.any fun o => o.bin.isNone

/-- Every one of the three sentinel-terminated arrays of the descriptor has its
terminator in storage. -/
def well_formed (query : as_query) : Bool :=
  select_terminated query.select && predicates_terminated query.predicates
    && orderby_terminated query.orderby

/-- Clauses the predicate walk visits: those stored before the first clause whose bin
pointer is NULL. -/
def visited_predicates (predicates : List as_predicate) : List as_predicate :=
  predicates.takeWhile fun p => p.bin.isSome

/-- Entries the order-by walk visits: those stored before the first one whose bin
pointer is NULL. -/
def visited_orderby (orderby : List as_orderby) : List as_orderby :=
  orderby.takeWhile fun o => o.bin.isSome

/-- Entries the bin-selection walk visits: those stored before the first NULL entry. -/
def visited_select (select : List (Option String)) : List (Option String) :=
  select.takeWhile fun s => s.isSome

/-- Filters the switch emits for one visited clause (none for a clause with a NULL bin
pointer, which the walk never hands to the switch). -/
def emitted_filters (p : as_predicate) : List cl_filter :=
  match p.bin with
  | none => []
  | some bin => request_filters (predicate_switch [] p bin)

/-- Tag is one of the three enumerators named by the switch. -/
def recognized (t : as_predicate_type) : Bool :=
  match t with
  | as_predicate_type.other _ => false
  | _ => true

/-! ## Lifecycle and executors -/

/-- Status returned to the caller (`as_status`): `AEROSPIKE_OK`, or any other code. -/
inductive as_status where
  | AEROSPIKE_OK
  | error (code : Nat)
  deriving DecidableEq, Repr

/-- Error object (`as_error`): the code member read by `return err->code` and the
detail text. -/
structure as_error where
  code : as_status
  message : String
  deriving DecidableEq, Repr

/-- Connection object (`aerospike`): `cluster` is the handle read by `as->cluster`. -/
structure aerospike where
  cluster : Nat
  deriving DecidableEq, Repr

/-- Query policy (`as_policy_query`); no member is read by this file. -/
structure as_policy_query where
  timeout : Nat
  deriving DecidableEq, Repr

/-- Return code of the transport (`cl_rv`). -/
abbrev cl_rv := Int

/-- Call into the citrusleaf layer made by the lifecycle functions and the executors,
with its arguments. Callbacks, user-data and streams are handles. -/
inductive cl_call where
  | citrusleaf_query_init
  | citrusleaf_query_shutdown
  | citrusleaf_query_foreach (cluster : Nat) (clquery : cl_query) (udata : Nat)
      (callback : Nat)
  | citrusleaf_query_stream (cluster : Nat) (clquery : cl_query) (stream : Nat)
  deriving DecidableEq, Repr

/-- Process-wide state: the counter `query_initialized` (a `cf_atomic32`, unsigned) and
the calls made into the citrusleaf layer so far, oldest first. -/
structure World where
  query_initialized : Nat
  calls : List cl_call
  deriving DecidableEq, Repr

/-- Return codes of the two transport entry points, as functions of their arguments. -/
structure Transport where
  citrusleaf_query_foreach : Nat → cl_query → Nat → Nat → cl_rv
  citrusleaf_query_stream : Nat → cl_query → Nat → cl_rv

/-- Modelled from the spec: `citrusleaf_query_init` of the citrusleaf layer, whose body is
not among the sources. The spec has the one-time setup of the execution subsystem leave
the process-wide state "initialized": the call is recorded and the counter becomes 1. -/
def citrusleaf_query_init (w : World) : World :=
  { query_initialized := 1, calls := w.calls ++ [cl_call.citrusleaf_query_init] }

/-- Modelled from the spec: `citrusleaf_query_shutdown` of the citrusleaf layer, whose
body is not among the sources. The spec has the shutdown leave the process-wide state
"uninitialized": the call is recorded and the counter becomes 0. -/
def citrusleaf_query_shutdown (w : World) : World :=
  { query_initialized := 0, calls := w.calls ++ [cl_call.citrusleaf_query_shutdown] }

/-- Lifecycle step as the executors see it: given the connection, the error object and
the state, a status, the error object afterwards and the state afterwards. -/
abbrev lifecycle_step := aerospike → as_error → World → as_status × as_error × World

/-- Function `aerospike_query_init(as, err)`. -/
def aerospike_query_init : lifecycle_step := fun _as err w =>
  if w.query_initialized > 0 then
    (as_status.AEROSPIKE_OK, err, w)
  else
    (as_status.AEROSPIKE_OK, err, citrusleaf_query_init w)

/-- Function `aerospike_query_destroy(as, err)`. -/
def aerospike_query_destroy : lifecycle_step := fun _as err w =>
  if w.query_initialized = 0 then
    (as_status.AEROSPIKE_OK, err, w)
  else
    (as_status.AEROSPIKE_OK, err, citrusleaf_query_shutdown w)

/-- Outcome of an executor call: the returned status, the error object and the state
afterwards, and the locals `clquery` and `rc` (`none` while never written). -/
structure query_outcome where
  status : as_status
  err : as_error
  clquery : Option cl_query
  rc : Option cl_rv
  world : World
  deriving DecidableEq, Repr

/-- Body of `aerospike_query_foreach`, for a given lifecycle step `init` and transport
`T`; `none` when the translation leaves the storage of the descriptor. -/
def query_foreach_body (init : lifecycle_step) (T : Transport) (as : aerospike)
    (err : as_error) (_policy : Option as_policy_query) (query : as_query)
    (callback udata : Nat) (w : World) : Option query_outcome :=
  match init as err w with
  | (st, err, w) =>
    if st ≠ as_status.AEROSPIKE_OK then
      some ⟨err.code, err, none, none, w⟩
    else
      match as_query_toclquery query with
      | none => none
      | some clquery =>
        let rc := T.citrusleaf_query_foreach as.cluster clquery udata callback
        some ⟨as_status.AEROSPIKE_OK, err, some clquery, some rc,
          { w with calls := w.calls ++
              [cl_call.citrusleaf_query_foreach as.cluster clquery udata callback] }⟩

/-- Body of `aerospike_query_stream`, for a given lifecycle step `init` and transport
`T`; `none` when the translation leaves the storage of the descriptor. -/
def query_stream_body (init : lifecycle_step) (T : Transport) (as : aerospike)
    (err : as_error) (_policy : Option as_policy_query) (query : as_query)
    (stream : Nat) (w : World) : Option query_outcome :=
  match init as err w with
  | (st, err, w) =>
    if st ≠ as_status.AEROSPIKE_OK then
      some ⟨err.code, err, none, none, w⟩
    else
      match as_query_toclquery query with
      | none => none
      | some clquery =>
        let rc := T.citrusleaf_query_stream as.cluster clquery stream
        some ⟨as_status.AEROSPIKE_OK, err, some clquery, some rc,
          { w with calls := w.calls ++
              [cl_call.citrusleaf_query_stream as.cluster clquery stream] }⟩

/-- Function `aerospike_query_foreach(as, err, policy, query, callback, udata)`. -/
def aerospike_query_foreach (T : Transport) (as : aerospike) (err : as_error)
    (policy : Option as_policy_query) (query : as_query) (callback udata : Nat)
    (w : World) : Option query_outcome :=
  query_foreach_body aerospike_query_init T as err policy query callback udata w

/-- Function `aerospike_query_stream(as, err, policy, query, stream)`. -/
def aerospike_query_stream (T : Transport) (as : aerospike) (err : as_error)
    (policy : Option as_policy_query) (query : as_query) (stream : Nat)
    (w : World) : Option query_outcome :=
  query_stream_body aerospike_query_init T as err policy query stream w

/-- Calls of the two transport entry points among the recorded calls. -/
def dispatches (calls : List cl_call) : List cl_call :=
  calls.filter fun c =>
    match c with
    | cl_call.citrusleaf_query_foreach _ _ _ _ => true
    | cl_call.citrusleaf_query_stream _ _ _ => true
    | _ => false

/-- Number of recorded `citrusleaf_query_init` calls. -/
def setups (calls : List cl_call) : Nat :=
  calls.count cl_call.citrusleaf_query_init

/-- Number of recorded `citrusleaf_query_shutdown` calls. -/
def shutdowns (calls : List cl_call) : Nat :=
  calls.count cl_call.citrusleaf_query_shutdown

/-! ## Calls issued by each part of the translation -/

/-- Bin names the bin-selection walk hands to `cl_query_select`, in order. -/
def selected_bins (select : List (Option String)) : List String :=
  (visited_select select).filterMap id

/-- Builder calls the predicate walk issues for one clause. -/
def predicate_calls (p : as_predicate) : List cl_query_call :=
  match p.bin with
  | none => []
  | some bin => predicate_switch [] p bin

/-- Builder calls the order-by walk issues for one entry. -/
def orderby_calls (o : as_orderby) : List cl_query_call :=
  match o.bin with
  | none => []
  | some bin =>
    [cl_query_call.orderby bin
      (if o.ascending then cl_query_orderby_op.CL_ORDERBY_ASC
       else cl_query_orderby_op.CL_ORDERBY_DESC)]

/-- Builder calls issued by the test on `query->limit`. -/
def limit_calls (query : as_query) : List cl_query_call :=
  if query.limit ≠ UINT64_MAX then [cl_query_call.limit query.limit] else []

/-- Builder calls issued by the test on `query->apply`. -/
def apply_calls (apply : as_udf_call) : List cl_query_call :=
  apply_step [] apply

/-- All builder calls of a translation whose walks meet their terminators, in the order
of the statements of `as_query_toclquery`. -/
def translation (query : as_query) : cl_query :=
  cl_query_call.init query.namespace_ query.set :: limit_calls query
    ++ (selected_bins query.select).map cl_query_call.select
    ++ (visited_predicates query.predicates).flatMap predicate_calls
    ++ (visited_orderby query.orderby).flatMap orderby_calls
    ++ apply_calls query.apply

/-! ## Statements of the specification -/

/-- Empty name in the sense of the specification ("empty/absent"): the NULL pointer or
the empty string. -/
def empty_name (name : Option String) : Bool :=
  match name with
  | none => true
  | some s => decide (s = "")

/-- Clauses stored before the first clause whose bin name is empty in the sense of the
specification. -/
def clauses_before_empty_bin (predicates : List as_predicate) : List as_predicate :=
  predicates.takeWhile fun p => !empty_name p.bin

/-- Specification sentence "translation stops at the first clause with an empty bin
name", at one descriptor: the filters of the request are those of the clauses stored
before the first clause with an empty bin name. -/
def stops_at_empty_bin (query : as_query) : Prop :=
  (as_query_toclquery query).map request_filters
    = some ((clauses_before_empty_bin query.predicates).flatMap emitted_filters)

/-- Specification sentence "present only if both module and function are non-empty", at
one descriptor: the request carries an aggregation stage exactly when neither name is
empty in the sense of the specification. -/
def aggregation_iff_nonempty (query : as_query) : Prop :=
  (as_query_toclquery query).map (fun r => (request_aggregation r).isSome)
    = some (!empty_name query.apply.module && !empty_name query.apply.function)

/-- Filter shape the specification documents for a clause, by kind: an equality filter
on the string value, an equality filter on the integer value, a range filter on min and
max in that order. -/
def documented_filter (p : as_predicate) : Option cl_filter :=
  match p.bin, p.type with
  | some bin, as_predicate_type.AS_PREDICATE_STRING_EQUAL =>
      some ⟨bin, cl_query_op.CL_EQ, cl_type.CL_STR, [cl_where_arg.string p.value.string]⟩
  | some bin, as_predicate_type.AS_PREDICATE_INTEGER_EQUAL =>
      some ⟨bin, cl_query_op.CL_EQ, cl_type.CL_INT, [cl_where_arg.integer p.value.integer]⟩
  | some bin, as_predicate_type.AS_PREDICATE_INTEGER_RANGE =>
      some ⟨bin, cl_query_op.CL_RANGE, cl_type.CL_INT,
        [cl_where_arg.integer p.value.integer_range.min,
         cl_where_arg.integer p.value.integer_range.max]⟩
  | _, _ => none

/-- Stored clauses with the visited clauses of an unrecognized kind taken out; the
terminator and what is stored after it stay. -/
def without_unrecognized (predicates : List as_predicate) : List as_predicate :=
  (visited_predicates predicates).filter (fun p => recognized p.type)
    ++ predicates.dropWhile (fun p => p.bin.isSome)

/-! ## Sample inputs -/

/-- Clause with a NULL bin pointer, the terminator of a predicate array. -/
def end_of_predicates : as_predicate :=
  ⟨none, as_predicate_type.AS_PREDICATE_STRING_EQUAL, ⟨none, 0, ⟨0, 0⟩⟩⟩

/-- Entry with a NULL bin pointer, the terminator of an order-by array. -/
def end_of_orderby : as_orderby := ⟨none, false⟩

/-- Clause `name == "ann"`. -/
def name_equals_ann : as_predicate :=
  ⟨some "name", as_predicate_type.AS_PREDICATE_STRING_EQUAL, ⟨some "ann", 0, ⟨0, 0⟩⟩⟩

/-- Clause `zip == 7`. -/
def zip_equals_7 : as_predicate :=
  ⟨some "zip", as_predicate_type.AS_PREDICATE_INTEGER_EQUAL, ⟨none, 7, ⟨0, 0⟩⟩⟩

/-- Clause `5 <= age <= 10`. -/
def age_5_to_10 : as_predicate :=
  ⟨some "age", as_predicate_type.AS_PREDICATE_INTEGER_RANGE, ⟨none, 0, ⟨5, 10⟩⟩⟩

/-- Clause on bin "tag" whose kind is none of the three enumerators. -/
def tag_unknown_kind : as_predicate :=
  ⟨some "tag", as_predicate_type.other 9, ⟨some "x", 1, ⟨2, 3⟩⟩⟩

/-- Clause whose bin pointer is set and points to the empty string. -/
def empty_string_bin : as_predicate :=
  ⟨some "", as_predicate_type.AS_PREDICATE_STRING_EQUAL, ⟨some "x", 0, ⟨0, 0⟩⟩⟩

/-- Descriptor on namespace "test" with no selection, no predicate, no ordering, no
aggregation and no limit. -/
def plain_query : as_query :=
  { namespace_ := some "test", set := none, select := [none], limit := UINT64_MAX,
    predicates := [end_of_predicates], orderby := [end_of_orderby],
    apply := ⟨none, none, none⟩ }

/-- Descriptor with selection, limit, three clauses of the three kinds, two sort keys
and an aggregation. -/
def full_query : as_query :=
  { namespace_ := some "test", set := some "people", select := [some "name", some "age", none],
    limit := 100,
    predicates := [name_equals_ann, zip_equals_7, age_5_to_10, end_of_predicates],
    orderby := [⟨some "age", true⟩, ⟨some "name", false⟩, end_of_orderby],
    apply := ⟨some "stats", some "avg", some [as_val.integer 1]⟩ }

/-- Descriptor whose first stored clause has the empty string as bin name, followed by a
populated clause and the NULL terminator. -/
def empty_bin_query : as_query :=
  { plain_query with predicates := [empty_string_bin, zip_equals_7, end_of_predicates] }

/-- Descriptor of `empty_bin_query` with the populated clause `name_equals_ann` stored
after the NULL terminator. -/
def trailing_clause_query : as_query :=
  { plain_query with
    predicates := [empty_string_bin, zip_equals_7, end_of_predicates, name_equals_ann] }

/-- Descriptor whose module name is the empty string and whose function name is "avg". -/
def empty_module_query : as_query :=
  { plain_query with apply := ⟨some "", some "avg", none⟩ }

/-- Descriptor whose module name is set and whose function pointer is NULL. -/
def module_only_query : as_query :=
  { plain_query with apply := ⟨some "stats", none, none⟩ }

/-- Descriptor with an unrecognized clause between two recognized ones. -/
def unknown_kind_query : as_query :=
  { plain_query with
    predicates := [name_equals_ann, tag_unknown_kind, age_5_to_10, end_of_predicates] }

/-- Connection with cluster handle 1. -/
def sample_connection : aerospike := ⟨1⟩

/-- Error object holding `AEROSPIKE_OK`. -/
def clean_error : as_error := ⟨as_status.AEROSPIKE_OK, ""⟩

/-- State with the counter at 0 and no call made. -/
def fresh_world : World := ⟨0, []⟩

/-- Transport whose two entry points return -1 for every request. -/
def failing_transport : Transport := ⟨fun _ _ _ _ => -1, fun _ _ _ => -1⟩

/-- Lifecycle step that returns status code 1 and writes neither the error object nor
the state; it does not follow the documented use of `err`. -/
def silent_failing_step : lifecycle_step := fun _ err w => (as_status.error 1, err, w)

/-- Phase of a builder call, numbered in the order of the statements of
`as_query_toclquery`: initialization, row limit, projection, filters, sort keys,
aggregation. -/
def phase (c : cl_query_call) : Nat :=
  match c with
  | cl_query_call.init _ _ => 0
  | cl_query_call.limit _ => 1
  | cl_query_call.select _ => 2
  | cl_query_call.where_ _ _ _ _ => 3
  | cl_query_call.orderby _ _ => 4
  | cl_query_call.aggregate _ _ _ => 5

/-- Initialization calls of a request (`cl_query_init`), oldest first. -/
def request_inits (clquery : cl_query) : List (Option String × Option String) :=
  clquery.filterMap fun c =>
    match c with
    | cl_query_call.init ns set => some (ns, set)
    | _ => none

/-- Loop of `select_loop` that also counts, from `steps`, the executions of its body. -/
def select_loop_steps : List (Option String) → cl_query → Nat → Option (cl_query × Nat)
  | [], _, _ => none
  | none :: _, clquery, steps => some (clquery, steps)
  | some s :: rest, clquery, steps =>
    select_loop_steps rest (cl_query_select clquery s) (steps + 1)

/-- Loop of `predicates_loop` that also counts, from `steps`, the executions of its
body. -/
def predicates_loop_steps : List as_predicate → cl_query → Nat → Option (cl_query × Nat)
  | [], _, _ => none
  | p :: rest, clquery, steps =>
    match p.bin with
    | none => some (clquery, steps)
    | some bin => predicates_loop_steps rest (predicate_switch clquery p bin) (steps + 1)

/-- Loop of `orderby_loop` that also counts, from `steps`, the executions of its body. -/
def orderby_loop_steps : List as_orderby → cl_query → Nat → Option (cl_query × Nat)
  | [], _, _ => none
  | o :: rest, clquery, steps =>
    match o.bin with
    | none => some (clquery, steps)
    | some bin =>
      orderby_loop_steps rest
        (cl_query_orderby clquery bin
          (if o.ascending then cl_query_orderby_op.CL_ORDERBY_ASC
           else cl_query_orderby_op.CL_ORDERBY_DESC))
        (steps + 1)

/-! ## Delivery by the transport -/

/-- Stored record of the cluster: its namespace, its set and its bins. -/
structure as_record where
  namespace_ : String
  set : String
  bins : List (String × as_val)
  deriving DecidableEq, Repr

/-- Modelled from the spec: whether a record satisfies one filter, the matching being done
by the cluster behind `citrusleaf_query_foreach`, which is not among the sources. The
spec has an equality filter compare the named bin to the string or integer value and a
range filter hold for min <= bin <= max. -/
def filter_holds (f : cl_filter) (r : as_record) : Bool :=
  match f.op, f.type, f.args, r.bins.lookup f.bin with
  | cl_query_op.CL_EQ, cl_type.CL_STR, [cl_where_arg.string (some s)], some (as_val.string v) =>
      decide (v = s)
  | cl_query_op.CL_EQ, cl_type.CL_INT, [cl_where_arg.integer i], some (as_val.integer v) =>
      decide (v = i)
  | cl_query_op.CL_RANGE, cl_type.CL_INT, [cl_where_arg.integer lo, cl_where_arg.integer hi],
      some (as_val.integer v) => decide (lo ≤ v) && decide (v ≤ hi)
  | _, _, _, _ => false

/-- Modelled from the spec: whether a record is in the scope of a request, the namespace
given to `cl_query_init` and, when one was given, the set. -/
def in_scope (clquery : cl_query) (r : as_record) : Bool :=
  match (request_inits clquery).getLast? with
  | some (some ns, none) => decide (r.namespace_ = ns)
  | some (some ns, some set) => decide (r.namespace_ = ns) && decide (r.set = set)
  | _ => false

/-- Modelled from the spec: the records a request matches in a dataset, the matching being
done by the cluster behind `citrusleaf_query_foreach`, which is not among the sources.
The spec has the filters conjunctive and the row limit bound the number of results;
ordering and aggregation are left out. -/
def matching_records (dataset : List as_record) (clquery : cl_query) : List as_record :=
  let matched := dataset.filter fun r =>
    in_scope clquery r && (request_filters clquery).all fun f => filter_holds f r
  match request_row_limit clquery with
  | some limit => matched.take limit
  | none => matched

/-- Callback invocation: the callback handle, the record passed and the user-data
passed. -/
structure callback_invocation where
  callback : Nat
  record : as_record
  udata : Nat
  deriving DecidableEq, Repr

/-- Modelled from the spec: the callback invocations a recorded call gives rise to over a
dataset. The spec has the transport entry point `citrusleaf_query_foreach`, which is not
among the sources, invoke `callback(record, udata)` once per matching record; the other
calls invoke no callback. -/
def callback_invocations (dataset : List as_record) (c : cl_call) :
    List callback_invocation :=
  match c with
  | cl_call.citrusleaf_query_foreach _ clquery udata callback =>
      (matching_records dataset clquery).map fun r => ⟨callback, r, udata⟩
  | _ => []

/-- Dataset of three records in namespace "test". -/
def three_records : List as_record :=
  [⟨"test", "people", [("name", as_val.string "ann"), ("age", as_val.integer 7)]⟩,
   ⟨"test", "people", [("name", as_val.string "bob"), ("age", as_val.integer 12)]⟩,
   ⟨"test", "places", [("zip", as_val.integer 7)]⟩]

/-- State with the counter at 1 after one recorded setup. -/
def initialized_world : World := ⟨1, [cl_call.citrusleaf_query_init]⟩

/-! ## The three walks -/

theorem select_loop_eq (select : List (Option String)) :
    ∀ clquery : cl_query, select_terminated select = true →
      select_loop select clquery
        = some (clquery ++ (selected_bins select).map cl_query_call.select) := by
  induction select with
  | nil => intro clquery h; simp [select_terminated] at h
  | cons s rest ih =>
    intro clquery h
    cases s with
    | none => simp [select_loop, selected_bins, visited_select]
    | some b =>
      have hrest : select_terminated rest = true := by
        simpa [select_terminated] using h
      have := ih (cl_query_select clquery b) hrest
      simp only [select_loop, this]
      simp [selected_bins, visited_select, cl_query_select]

theorem predicate_switch_eq (clquery : cl_query) (p : as_predicate) (bin : String) :
    predicate_switch clquery p bin = clquery ++ predicate_switch [] p bin := by
  unfold predicate_switch
  cases p.type <;> simp [cl_query_where]

theorem predicates_loop_eq (predicates : List as_predicate) :
    ∀ clquery : cl_query, predicates_terminated predicates = true →
      predicates_loop predicates clquery
        = some (clquery ++ (visited_predicates predicates).flatMap predicate_calls) := by
  induction predicates with
  | nil => intro clquery h; simp [predicates_terminated] at h
  | cons p rest ih =>
    intro clquery h
    cases hb : p.bin with
    | none => simp [predicates_loop, hb, visited_predicates]
    | some b =>
      have hrest : predicates_terminated rest = true := by
        simpa [predicates_terminated, hb] using h
      have := ih (predicate_switch clquery p b) hrest
      simp only [predicates_loop, hb, this]
      rw [predicate_switch_eq]
      simp [visited_predicates, hb, predicate_calls]

theorem orderby_loop_eq (orderby : List as_orderby) :
    ∀ clquery : cl_query, orderby_terminated orderby = true →
      orderby_loop orderby clquery
        = some (clquery ++ (visited_orderby orderby).flatMap orderby_calls) := by
  induction orderby with
  | nil => intro clquery h; simp [orderby_terminated] at h
  | cons o rest ih =>
    intro clquery h
    cases hb : o.bin with
    | none => simp [orderby_loop, hb, visited_orderby]
    | some b =>
      have hrest : orderby_terminated rest = true := by
        simpa [orderby_terminated, hb] using h
      have := ih (cl_query_orderby clquery b
        (if o.ascending then cl_query_orderby_op.CL_ORDERBY_ASC
         else cl_query_orderby_op.CL_ORDERBY_DESC)) hrest
      simp only [orderby_loop, hb, this]
      simp [visited_orderby, hb, orderby_calls, cl_query_orderby]

theorem apply_step_eq (clquery : cl_query) (apply : as_udf_call) :
    apply_step clquery apply = clquery ++ apply_calls apply := by
  unfold apply_calls apply_step
  cases apply.module <;> cases apply.function <;> simp [cl_query_aggregate]

/-- On a well-formed descriptor the translation returns, and the request it leaves is
`translation query`. -/
theorem as_query_toclquery_eq (query : as_query) (h : well_formed query = true) :
    as_query_toclquery query = some (translation query) := by
  simp only [well_formed, Bool.and_eq_true] at h
  obtain ⟨⟨hs, hp⟩, ho⟩ := h
  unfold as_query_toclquery
  simp only [select_loop_eq _ _ hs, predicates_loop_eq _ _ hp, orderby_loop_eq _ _ ho,
    apply_step_eq]
  unfold translation limit_calls cl_query_init cl_query_limit
  split <;> simp

/-! ## What the translated request carries -/

theorem visited_predicates_append (pre post : List as_predicate) (t : as_predicate)
    (hpre : ∀ p ∈ pre, p.bin ≠ none) (ht : t.bin = none) :
    visited_predicates (pre ++ t :: post) = pre := by
  unfold visited_predicates
  rw [List.takeWhile_append_of_pos]
  · simp [ht]
  · intro a ha
    cases hb : a.bin with
    | none => exact absurd hb (hpre a ha)
    | some b => rfl

theorem predicates_terminated_append (pre post : List as_predicate) (t : as_predicate)
    (ht : t.bin = none) : predicates_terminated (pre ++ t :: post) = true := by
  simp [predicates_terminated, ht]

theorem visited_orderby_entries (entries : List (String × Bool)) (t : as_orderby)
    (post : List as_orderby) (ht : t.bin = none) :
    visited_orderby (entries.map (fun e => (⟨some e.1, e.2⟩ : as_orderby)) ++ t :: post)
      = entries.map (fun e => (⟨some e.1, e.2⟩ : as_orderby)) := by
  unfold visited_orderby
  rw [List.takeWhile_append_of_pos]
  · simp [ht]
  · intro a ha
    simp only [List.mem_map] at ha
    obtain ⟨e, _, rfl⟩ := ha
    rfl

theorem selected_bins_entries (bins : List String) (rest : List (Option String)) :
    selected_bins (bins.map some ++ none :: rest) = bins := by
  induction bins with
  | nil => simp [selected_bins, visited_select]
  | cons b bs ih =>
    simp only [selected_bins, visited_select] at ih
    simp [selected_bins, visited_select, ih]

theorem request_filters_translation (query : as_query) :
    request_filters (translation query)
      = (visited_predicates query.predicates).flatMap emitted_filters := by
  have hsel : ∀ l : List String,
      List.filterMap (fun c => match c with
        | cl_query_call.where_ bin op type args => some (⟨bin, op, type, args⟩ : cl_filter)
        | _ => none) (l.map cl_query_call.select) = [] := by
    intro l; induction l <;> simp_all
  have hord : ∀ l : List as_orderby,
      List.filterMap (fun c => match c with
        | cl_query_call.where_ bin op type args => some (⟨bin, op, type, args⟩ : cl_filter)
        | _ => none) (l.flatMap orderby_calls) = [] := by
    intro l
    induction l with
    | nil => simp
    | cons o os ih =>
      simp only [List.flatMap_cons, List.filterMap_append, ih, List.append_nil]
      unfold orderby_calls
      cases o.bin <;> simp
  have hpred : ∀ l : List as_predicate,
      List.filterMap (fun c => match c with
        | cl_query_call.where_ bin op type args => some (⟨bin, op, type, args⟩ : cl_filter)
        | _ => none) (l.flatMap predicate_calls) = l.flatMap emitted_filters := by
    intro l
    induction l with
    | nil => simp
    | cons p ps ih =>
      simp only [List.flatMap_cons, List.filterMap_append, ih]
      congr 1
      unfold predicate_calls emitted_filters request_filters
      cases p.bin <;> simp
  have hlim : List.filterMap (fun c => match c with
        | cl_query_call.where_ bin op type args => some (⟨bin, op, type, args⟩ : cl_filter)
        | _ => none) (limit_calls query) = [] := by
    unfold limit_calls; split <;> simp
  have happ : List.filterMap (fun c => match c with
        | cl_query_call.where_ bin op type args => some (⟨bin, op, type, args⟩ : cl_filter)
        | _ => none) (apply_calls query.apply) = [] := by
    unfold apply_calls apply_step
    cases query.apply.module <;> cases query.apply.function <;> simp [cl_query_aggregate]
  unfold request_filters translation
  simp only [List.cons_append, List.filterMap_cons, List.filterMap_append, hsel, hord, hpred,
    hlim, happ, List.append_nil, List.nil_append]

theorem filterMap_translation {β : Type} (f : cl_query_call → Option β) (query : as_query) :
    List.filterMap f (translation query)
      = List.filterMap f [cl_query_call.init query.namespace_ query.set]
        ++ List.filterMap f (limit_calls query)
        ++ List.filterMap f ((selected_bins query.select).map cl_query_call.select)
        ++ (visited_predicates query.predicates).flatMap
            (fun p => List.filterMap f (predicate_calls p))
        ++ (visited_orderby query.orderby).flatMap
            (fun o => List.filterMap f (orderby_calls o))
        ++ List.filterMap f (apply_calls query.apply) := by
  unfold translation
  simp only [List.cons_append, List.filterMap_cons, List.filterMap_nil, List.filterMap_append,
    List.filterMap_flatMap]
  cases f (cl_query_call.init query.namespace_ query.set) <;> simp

theorem flatMap_nil_of_forall {α β : Type} (l : List α) (g : α → List β)
    (h : ∀ a, g a = []) : l.flatMap g = [] := by
  induction l with
  | nil => rfl
  | cons a as ih => simp [List.flatMap_cons, h a, ih]

theorem request_projection_translation (query : as_query) :
    request_projection (translation query) = selected_bins query.select := by
  unfold request_projection
  rw [filterMap_translation]
  have hpred : ∀ p : as_predicate, List.filterMap (fun c => match c with
        | cl_query_call.select bin => some bin
        | _ => none) (predicate_calls p) = [] := by
    intro p
    unfold predicate_calls predicate_switch
    cases p.bin <;> cases p.type <;> simp [cl_query_where]
  have hord : ∀ o : as_orderby, List.filterMap (fun c => match c with
        | cl_query_call.select bin => some bin
        | _ => none) (orderby_calls o) = [] := by
    intro o
    unfold orderby_calls
    cases o.bin <;> simp
  have hlim : List.filterMap (fun c => match c with
        | cl_query_call.select bin => some bin
        | _ => none) (limit_calls query) = [] := by
    unfold limit_calls; split <;> simp
  have happ : List.filterMap (fun c => match c with
        | cl_query_call.select bin => some bin
        | _ => none) (apply_calls query.apply) = [] := by
    unfold apply_calls apply_step
    cases query.apply.module <;> cases query.apply.function <;> simp [cl_query_aggregate]
  have hsel : ∀ l : List String, List.filterMap (fun c => match c with
        | cl_query_call.select bin => some bin
        | _ => none) (l.map cl_query_call.select) = l := by
    intro l; induction l <;> simp_all
  rw [flatMap_nil_of_forall _ _ hpred, flatMap_nil_of_forall _ _ hord, hlim, happ, hsel]
  simp

theorem request_sort_keys_translation (query : as_query) :
    request_sort_keys (translation query)
      = (visited_orderby query.orderby).flatMap
          (fun o => request_sort_keys (orderby_calls o)) := by
  unfold request_sort_keys
  rw [filterMap_translation]
  have hpred : ∀ p : as_predicate, List.filterMap (fun c => match c with
        | cl_query_call.orderby bin order => some (⟨bin, order⟩ : cl_sort_key)
        | _ => none) (predicate_calls p) = [] := by
    intro p
    unfold predicate_calls predicate_switch
    cases p.bin <;> cases p.type <;> simp [cl_query_where]
  have hlim : List.filterMap (fun c => match c with
        | cl_query_call.orderby bin order => some (⟨bin, order⟩ : cl_sort_key)
        | _ => none) (limit_calls query) = [] := by
    unfold limit_calls; split <;> simp
  have happ : List.filterMap (fun c => match c with
        | cl_query_call.orderby bin order => some (⟨bin, order⟩ : cl_sort_key)
        | _ => none) (apply_calls query.apply) = [] := by
    unfold apply_calls apply_step
    cases query.apply.module <;> cases query.apply.function <;> simp [cl_query_aggregate]
  rw [flatMap_nil_of_forall _ _ hpred, hlim, happ]
  simp [List.filterMap_map]

theorem request_limits_translation (query : as_query) :
    request_limits (translation query)
      = if query.limit ≠ UINT64_MAX then [query.limit] else [] := by
  unfold request_limits
  rw [filterMap_translation]
  have hpred : ∀ p : as_predicate, List.filterMap (fun c => match c with
        | cl_query_call.limit n => some n
        | _ => none) (predicate_calls p) = [] := by
    intro p
    unfold predicate_calls predicate_switch
    cases p.bin <;> cases p.type <;> simp [cl_query_where]
  have hord : ∀ o : as_orderby, List.filterMap (fun c => match c with
        | cl_query_call.limit n => some n
        | _ => none) (orderby_calls o) = [] := by
    intro o
    unfold orderby_calls
    cases o.bin <;> simp
  have happ : List.filterMap (fun c => match c with
        | cl_query_call.limit n => some n
        | _ => none) (apply_calls query.apply) = [] := by
    unfold apply_calls apply_step
    cases query.apply.module <;> cases query.apply.function <;> simp [cl_query_aggregate]
  rw [flatMap_nil_of_forall _ _ hpred, flatMap_nil_of_forall _ _ hord, happ]
  unfold limit_calls
  split <;> simp [List.filterMap_map]

theorem request_aggregations_translation (query : as_query) :
    request_aggregations (translation query)
      = request_aggregations (apply_calls query.apply) := by
  unfold request_aggregations
  rw [filterMap_translation]
  have hpred : ∀ p : as_predicate, List.filterMap (fun c => match c with
        | cl_query_call.aggregate module function arglist =>
            some (⟨module, function, arglist⟩ : cl_aggregation)
        | _ => none) (predicate_calls p) = [] := by
    intro p
    unfold predicate_calls predicate_switch
    cases p.bin <;> cases p.type <;> simp [cl_query_where]
  have hord : ∀ o : as_orderby, List.filterMap (fun c => match c with
        | cl_query_call.aggregate module function arglist =>
            some (⟨module, function, arglist⟩ : cl_aggregation)
        | _ => none) (orderby_calls o) = [] := by
    intro o
    unfold orderby_calls
    cases o.bin <;> simp
  have hlim : List.filterMap (fun c => match c with
        | cl_query_call.aggregate module function arglist =>
            some (⟨module, function, arglist⟩ : cl_aggregation)
        | _ => none) (limit_calls query) = [] := by
    unfold limit_calls; split <;> simp
  rw [flatMap_nil_of_forall _ _ hpred, flatMap_nil_of_forall _ _ hord, hlim]
  simp [List.filterMap_map]

theorem translation_congr (query query2 : as_query)
    (hns : query2.namespace_ = query.namespace_) (hset : query2.set = query.set)
    (hlim : query2.limit = query.limit) (hsel : query2.select = query.select)
    (hpred : visited_predicates query2.predicates = visited_predicates query.predicates)
    (hord : query2.orderby = query.orderby) (happ : query2.apply = query.apply) :
    translation query2 = translation query := by
  unfold translation limit_calls
  rw [hns, hset, hlim, hsel, hpred, hord, happ]

/-! ## Translation: the claims -/

/-- C1 (as stated, refuted): in `empty_bin_query` the first stored clause has the empty
string as bin name, so no clause precedes the first empty bin name; the translation still
emits a filter for that clause and for the populated clause after it. -/
theorem empty_string_bin_does_not_stop_walk :
    clauses_before_empty_bin empty_bin_query.predicates = []
    ∧ (as_query_toclquery empty_bin_query).map request_filters
        = some [⟨"", cl_query_op.CL_EQ, cl_type.CL_STR, [cl_where_arg.string (some "x")]⟩,
                ⟨"zip", cl_query_op.CL_EQ, cl_type.CL_INT, [cl_where_arg.integer 7]⟩]
    ∧ ¬ stops_at_empty_bin empty_bin_query := by
  refine ⟨by decide, by decide, ?_⟩
  unfold stops_at_empty_bin
  decide

/-- C1 (amended): the predicate walk stops at the first clause whose bin pointer is NULL.
When the stored clauses are `pre`, all with a bin pointer that is set (the empty string
included), then a clause `t` with a NULL bin pointer, then `post`, the filters of the
request are those emitted for the clauses of `pre`, and the whole request is the same
whatever is stored after `t`. -/
theorem walk_stops_at_absent_bin (query : as_query) (pre post : List as_predicate)
    (t : as_predicate)
    (hsel : select_terminated query.select = true)
    (hord : orderby_terminated query.orderby = true)
    (hq : query.predicates = pre ++ t :: post)
    (hpre : ∀ p ∈ pre, p.bin ≠ none) (ht : t.bin = none) :
    (as_query_toclquery query).map request_filters = some (pre.flatMap emitted_filters)
    ∧ ∀ post2 : List as_predicate,
        as_query_toclquery { query with predicates := pre ++ t :: post2 }
          = as_query_toclquery query := by
  have hwf : ∀ l : List as_predicate,
      well_formed { query with predicates := pre ++ t :: l } = true := by
    intro l
    simp [well_formed, hsel, hord, predicates_terminated_append pre l t ht]
  have hself : { query with predicates := pre ++ t :: post } = query := by
    rw [← hq]
  have hwfq : well_formed query = true := by
    have := hwf post
    rwa [hself] at this
  refine ⟨?_, ?_⟩
  · rw [as_query_toclquery_eq query hwfq, Option.map_some', request_filters_translation, hq,
      visited_predicates_append pre post t hpre ht]
  · intro post2
    rw [as_query_toclquery_eq _ (hwf post2), as_query_toclquery_eq query hwfq]
    congr 1
    apply translation_congr <;> try rfl
    show visited_predicates (pre ++ t :: post2) = visited_predicates query.predicates
    rw [hq, visited_predicates_append pre post2 t hpre ht,
      visited_predicates_append pre post t hpre ht]

/-- C1 (amended), at `trailing_clause_query`: the two clauses before the NULL bin pointer
give a filter each, the one with the empty-string bin name included, and the populated
clause stored after the terminator gives none. -/
theorem walk_stops_at_absent_bin_witness :
    (select_terminated trailing_clause_query.select = true
      ∧ orderby_terminated trailing_clause_query.orderby = true
      ∧ trailing_clause_query.predicates
          = [empty_string_bin, zip_equals_7] ++ end_of_predicates :: [name_equals_ann]
      ∧ (∀ p ∈ [empty_string_bin, zip_equals_7], p.bin ≠ none)
      ∧ end_of_predicates.bin = none)
    ∧ (as_query_toclquery trailing_clause_query).map request_filters
        = some ([empty_string_bin, zip_equals_7].flatMap emitted_filters)
    ∧ ∀ post2 : List as_predicate,
        as_query_toclquery
            { trailing_clause_query with
              predicates := [empty_string_bin, zip_equals_7] ++ end_of_predicates :: post2 }
          = as_query_toclquery trailing_clause_query :=
  ⟨⟨rfl, rfl, rfl, by decide, rfl⟩,
   walk_stops_at_absent_bin trailing_clause_query [empty_string_bin, zip_equals_7]
     [name_equals_ann] end_of_predicates rfl rfl rfl (by decide) rfl⟩

/-- C2 (as stated, refuted): in `empty_module_query` the module name is the empty string,
yet the request carries the aggregation stage ("", "avg"). -/
theorem empty_string_module_is_aggregated :
    empty_name empty_module_query.apply.module = true
    ∧ (as_query_toclquery empty_module_query).map request_aggregation
        = some (some ⟨"", "avg", none⟩)
    ∧ ¬ aggregation_iff_nonempty empty_module_query := by
  refine ⟨by decide, by decide, ?_⟩
  unfold aggregation_iff_nonempty
  decide

/-- C2 (amended): on a well-formed descriptor the request carries an aggregation stage if
and only if the module pointer and the function pointer are both set (non-NULL, the
empty string included); the stage is then the single one made of the module, the
function and the argument list of the descriptor, and there is none otherwise. -/
theorem aggregation_iff_both_set (query : as_query) (h : well_formed query = true) :
    (as_query_toclquery query).map request_aggregations
        = some (match query.apply.module, query.apply.function with
                | some module, some function => [⟨module, function, query.apply.arglist⟩]
                | _, _ => [])
    ∧ (as_query_toclquery query).map (fun r => (request_aggregation r).isSome)
        = some (query.apply.module.isSome && query.apply.function.isSome) := by
  rw [as_query_toclquery_eq query h]
  simp only [Option.map_some', request_aggregation, request_aggregations_translation]
  unfold apply_calls apply_step request_aggregations
  cases query.apply.module <;> cases query.apply.function <;> simp [cl_query_aggregate]

/-- C2 (amended), at `module_only_query`: module set, function pointer NULL, and the
request carries no aggregation stage. -/
theorem aggregation_iff_both_set_witness :
    well_formed module_only_query = true
    ∧ (as_query_toclquery module_only_query).map request_aggregations = some []
    ∧ (as_query_toclquery module_only_query).map (fun r => (request_aggregation r).isSome)
        = some false :=
  ⟨rfl, aggregation_iff_both_set module_only_query rfl⟩

theorem emitted_filter_documented (p : as_predicate) (hb : p.bin.isSome = true)
    (hk : recognized p.type = true) :
    (emitted_filters p).map some = [documented_filter p] := by
  unfold emitted_filters documented_filter request_filters predicate_switch
  cases hbin : p.bin with
  | none => simp [hbin] at hb
  | some b =>
    cases hty : p.type <;> simp_all [cl_query_where, recognized]

theorem emitted_filters_documented (l : List as_predicate)
    (h : ∀ p ∈ l, p.bin.isSome = true ∧ recognized p.type = true) :
    (l.flatMap emitted_filters).map some = l.map documented_filter := by
  induction l with
  | nil => rfl
  | cons p ps ih =>
    have hp := h p (List.mem_cons_self p ps)
    have hps := ih (fun q hq => h q (List.mem_cons_of_mem p hq))
    simp only [List.flatMap_cons, List.map_append, List.map_cons, hps,
      emitted_filter_documented p hp.1 hp.2]
    rfl

/-- C3: on a well-formed descriptor the filters of the request are the filters emitted
for the visited clauses (those before the NULL terminator), clause after clause; every
visited clause of one of the three kinds emits exactly one filter, on the bin of the
clause and of the documented shape for its kind: (CL_EQ, CL_STR, string value),
(CL_EQ, CL_INT, integer value) or (CL_RANGE, CL_INT, min, max). Hence, when all visited
clauses have one of the three kinds, the filter list is, clause by clause, the list of
the documented filters. -/
theorem filters_have_documented_shape (query : as_query) (h : well_formed query = true) :
    (as_query_toclquery query).map request_filters
        = some ((visited_predicates query.predicates).flatMap emitted_filters)
    ∧ (∀ p ∈ visited_predicates query.predicates, recognized p.type = true →
        (emitted_filters p).map some = [documented_filter p])
    ∧ ((∀ p ∈ visited_predicates query.predicates, recognized p.type = true) →
        (as_query_toclquery query).map (fun r => (request_filters r).map some)
          = some ((visited_predicates query.predicates).map documented_filter)) := by
  have hbin : ∀ p ∈ visited_predicates query.predicates, p.bin.isSome = true := fun p hp =>
    @List.mem_takeWhile_imp _ (fun q : as_predicate => q.bin.isSome) query.predicates p hp
  refine ⟨?_, ?_, ?_⟩
  · rw [as_query_toclquery_eq query h, Option.map_some', request_filters_translation]
  · intro p hp hk
    exact emitted_filter_documented p (hbin p hp) hk
  · intro hk
    rw [as_query_toclquery_eq query h, Option.map_some', request_filters_translation]
    congr 1
    exact emitted_filters_documented _ (fun p hp => ⟨hbin p hp, hk p hp⟩)

/-- C3, at `full_query`: the clauses `name == "ann"`, `zip == 7` and `5 <= age <= 10`
give, in this order, the equality filter on "name", the equality filter on "zip" and the
range filter [5,10] on "age". -/
theorem filters_have_documented_shape_witness :
    (well_formed full_query = true
      ∧ ∀ p ∈ visited_predicates full_query.predicates, recognized p.type = true)
    ∧ documented_filter age_5_to_10
        = some ⟨"age", cl_query_op.CL_RANGE, cl_type.CL_INT,
                 [cl_where_arg.integer 5, cl_where_arg.integer 10]⟩
    ∧ (as_query_toclquery full_query).map (fun r => (request_filters r).map some)
        = some [some ⟨"name", cl_query_op.CL_EQ, cl_type.CL_STR,
                       [cl_where_arg.string (some "ann")]⟩,
                some ⟨"zip", cl_query_op.CL_EQ, cl_type.CL_INT, [cl_where_arg.integer 7]⟩,
                some ⟨"age", cl_query_op.CL_RANGE, cl_type.CL_INT,
                       [cl_where_arg.integer 5, cl_where_arg.integer 10]⟩] :=
  ⟨⟨rfl, by decide⟩, rfl, (filters_have_documented_shape full_query rfl).2.2 (by decide)⟩

/-- C4: on a well-formed descriptor the request has a row limit set exactly when the
limit of the descriptor differs from `UINT64_MAX`; the limit is then set once, to the
limit of the descriptor, and no limit is set when it is `UINT64_MAX`. -/
theorem row_limit_iff_not_unbounded (query : as_query) (h : well_formed query = true) :
    (as_query_toclquery query).map request_limits
        = some (if query.limit ≠ UINT64_MAX then [query.limit] else [])
    ∧ (as_query_toclquery query).map request_row_limit
        = some (if query.limit ≠ UINT64_MAX then some query.limit else none) := by
  rw [as_query_toclquery_eq query h]
  simp only [Option.map_some', request_row_limit, request_limits_translation]
  split <;> simp

/-- C4, at `full_query` (limit 100, forwarded) and at `plain_query` (limit `UINT64_MAX`,
nothing set). -/
theorem row_limit_iff_not_unbounded_witness :
    (well_formed full_query = true
      ∧ (as_query_toclquery full_query).map request_limits = some [100]
      ∧ (as_query_toclquery full_query).map request_row_limit = some (some 100))
    ∧ (well_formed plain_query = true
      ∧ (as_query_toclquery plain_query).map request_limits = some []
      ∧ (as_query_toclquery plain_query).map request_row_limit = some none) :=
  ⟨⟨rfl, row_limit_iff_not_unbounded full_query rfl⟩,
   ⟨rfl, row_limit_iff_not_unbounded plain_query rfl⟩⟩

/-- C5: when the stored bin-selection entries are the N names `bins` followed by the NULL
terminator (and anything after it), the projection list of the request is exactly `bins`,
in order, so it has N entries; with no name before the terminator it is empty. -/
theorem projection_is_selection (query : as_query) (bins : List String)
    (rest : List (Option String))
    (hq : query.select = bins.map some ++ none :: rest)
    (hpred : predicates_terminated query.predicates = true)
    (hord : orderby_terminated query.orderby = true) :
    (as_query_toclquery query).map request_projection = some bins
    ∧ (as_query_toclquery query).map (fun r => (request_projection r).length)
        = some bins.length := by
  have hsel : select_terminated query.select = true := by
    rw [hq]; simp [select_terminated]
  have hwf : well_formed query = true := by
    simp [well_formed, hsel, hpred, hord]
  rw [as_query_toclquery_eq query hwf]
  simp only [Option.map_some', request_projection_translation, hq, selected_bins_entries,
    and_self]

/-- C5, at `full_query`: the selection "name", "age", NULL gives the projection list
"name", "age". -/
theorem projection_is_selection_witness :
    (full_query.select = ["name", "age"].map some ++ none :: []
      ∧ predicates_terminated full_query.predicates = true
      ∧ orderby_terminated full_query.orderby = true)
    ∧ (as_query_toclquery full_query).map request_projection = some ["name", "age"]
    ∧ (as_query_toclquery full_query).map (fun r => (request_projection r).length)
        = some ["name", "age"].length :=
  ⟨⟨rfl, rfl, rfl⟩, projection_is_selection full_query ["name", "age"] [] rfl rfl rfl⟩

theorem sort_keys_of_entries (entries : List (String × Bool)) :
    (entries.map (fun e => (⟨some e.1, e.2⟩ : as_orderby))).flatMap
        (fun o => request_sort_keys (orderby_calls o))
      = entries.map (fun e => (⟨e.1, if e.2 then cl_query_orderby_op.CL_ORDERBY_ASC
                                     else cl_query_orderby_op.CL_ORDERBY_DESC⟩ : cl_sort_key)) := by
  induction entries with
  | nil => rfl
  | cons e es ih =>
    simp only [List.map_cons, List.flatMap_cons, ih]
    simp [request_sort_keys, orderby_calls]

/-- C10: when the stored order-by entries are M entries with a bin name, given by
`entries` (name, ascending flag), followed by an entry with a NULL bin pointer (and
anything after it), the request has exactly M sort keys, in the order of the entries, the
first entry first; each has the bin name of its entry and is ascending when the flag of
the entry is set, descending otherwise. -/
theorem sort_keys_follow_orderby (query : as_query) (entries : List (String × Bool))
    (t : as_orderby) (post : List as_orderby)
    (hsel : select_terminated query.select = true)
    (hpred : predicates_terminated query.predicates = true)
    (hq : query.orderby
      = entries.map (fun e => (⟨some e.1, e.2⟩ : as_orderby)) ++ t :: post)
    (ht : t.bin = none) :
    (as_query_toclquery query).map request_sort_keys
        = some (entries.map (fun e =>
            (⟨e.1, if e.2 then cl_query_orderby_op.CL_ORDERBY_ASC
                   else cl_query_orderby_op.CL_ORDERBY_DESC⟩ : cl_sort_key)))
    ∧ (as_query_toclquery query).map (fun r => (request_sort_keys r).length)
        = some entries.length := by
  have hord : orderby_terminated query.orderby = true := by
    rw [hq]; simp [orderby_terminated, ht]
  have hwf : well_formed query = true := by
    simp [well_formed, hsel, hpred, hord]
  rw [as_query_toclquery_eq query hwf]
  simp only [Option.map_some', request_sort_keys_translation, hq,
    visited_orderby_entries entries t post ht, sort_keys_of_entries, List.length_map, and_self]

/-- C10, at `full_query`: the entries ("age", ascending), ("name", not ascending) give the
sort keys ("age", CL_ORDERBY_ASC), ("name", CL_ORDERBY_DESC). -/
theorem sort_keys_follow_orderby_witness :
    (select_terminated full_query.select = true
      ∧ predicates_terminated full_query.predicates = true
      ∧ full_query.orderby
          = [("age", true), ("name", false)].map (fun e => (⟨some e.1, e.2⟩ : as_orderby))
              ++ end_of_orderby :: []
      ∧ end_of_orderby.bin = none)
    ∧ (as_query_toclquery full_query).map request_sort_keys
        = some [⟨"age", cl_query_orderby_op.CL_ORDERBY_ASC⟩,
                ⟨"name", cl_query_orderby_op.CL_ORDERBY_DESC⟩]
    ∧ (as_query_toclquery full_query).map (fun r => (request_sort_keys r).length)
        = some 2 :=
  ⟨⟨rfl, rfl, rfl, rfl⟩,
   sort_keys_follow_orderby full_query [("age", true), ("name", false)] end_of_orderby []
     rfl rfl rfl rfl⟩

theorem without_unrecognized_cons_some (p : as_predicate) (rest : List as_predicate)
    (bin : String) (hb : p.bin = some bin) :
    without_unrecognized (p :: rest)
      = (if recognized p.type = true then [p] else []) ++ without_unrecognized rest := by
  unfold without_unrecognized visited_predicates
  simp only [List.takeWhile_cons, List.dropWhile_cons, hb, Option.isSome_some, if_true,
    List.filter_cons]
  split <;> simp

theorem without_unrecognized_spec (predicates : List as_predicate)
    (h : predicates_terminated predicates = true) :
    predicates_terminated (without_unrecognized predicates) = true
    ∧ visited_predicates (without_unrecognized predicates)
        = (visited_predicates predicates).filter (fun p => recognized p.type) := by
  induction predicates with
  | nil => simp [predicates_terminated] at h
  | cons p rest ih =>
    cases hb : p.bin with
    | none =>
      simp [without_unrecognized, visited_predicates, predicates_terminated, hb]
    | some b =>
      have hrest : predicates_terminated rest = true := by
        simpa [predicates_terminated, hb] using h
      obtain ⟨ih1, ih2⟩ := ih hrest
      rw [without_unrecognized_cons_some p rest b hb]
      by_cases hk : recognized p.type = true
      · simp only [hk, if_true, List.singleton_append]
        refine ⟨?_, ?_⟩
        · simpa [predicates_terminated, hb] using ih1
        · simp only [visited_predicates] at ih2 ⊢
          simp [List.takeWhile_cons, hb, ih2, List.filter_cons, hk]
      · simp only [hk, if_false, List.nil_append]
        refine ⟨ih1, ?_⟩
        simp only [visited_predicates] at ih2 ⊢
        simp [List.takeWhile_cons, hb, ih2, List.filter_cons, hk]

theorem predicate_calls_unrecognized (p : as_predicate) (h : recognized p.type = false) :
    predicate_calls p = [] := by
  unfold predicate_calls predicate_switch
  cases p.bin with
  | none => rfl
  | some b => cases hty : p.type <;> simp_all [recognized]

theorem flatMap_predicate_calls_filter (l : List as_predicate) :
    (l.filter (fun p => recognized p.type)).flatMap predicate_calls
      = l.flatMap predicate_calls := by
  induction l with
  | nil => rfl
  | cons p ps ih =>
    by_cases hk : recognized p.type = true
    · simp [List.filter_cons, hk, List.flatMap_cons, ih]
    · have hk2 : recognized p.type = false := by simpa using hk
      simp [List.filter_cons, hk2, List.flatMap_cons, ih, predicate_calls_unrecognized p hk2]

/-- C9: on a well-formed descriptor the translation returns a request; a visited clause
whose kind is none of the three enumerators gives no filter; and the filter list is the
one the translation gives for the same stored clauses with the visited unrecognized
clauses taken out (the walk goes on to the clauses that follow them). -/
theorem unrecognized_clauses_are_skipped (query : as_query) (h : well_formed query = true) :
    (as_query_toclquery query).isSome = true
    ∧ (∀ p ∈ visited_predicates query.predicates,
        recognized p.type = false → emitted_filters p = [])
    ∧ (as_query_toclquery query).map request_filters
        = (as_query_toclquery
            { query with predicates := without_unrecognized query.predicates }).map
            request_filters
    ∧ (as_query_toclquery query).map request_filters
        = some (((visited_predicates query.predicates).filter
            (fun p => recognized p.type)).flatMap emitted_filters) := by
  have hparts := h
  simp only [well_formed, Bool.and_eq_true] at hparts
  obtain ⟨⟨hs, hp⟩, ho⟩ := hparts
  obtain ⟨hterm, hvis⟩ := without_unrecognized_spec query.predicates hp
  have hwf2 : well_formed { query with predicates := without_unrecognized query.predicates }
      = true := by
    simp [well_formed, hs, ho, hterm]
  have htr : translation { query with predicates := without_unrecognized query.predicates }
      = translation query := by
    unfold translation limit_calls
    simp only [hvis, flatMap_predicate_calls_filter]
  have hfilters : request_filters (translation query)
      = ((visited_predicates query.predicates).filter
          (fun p => recognized p.type)).flatMap emitted_filters := by
    rw [← htr, request_filters_translation]
    simp only [hvis]
  refine ⟨?_, ?_, ?_, ?_⟩
  · rw [as_query_toclquery_eq query h]; rfl
  · intro p _ hk
    unfold emitted_filters predicate_switch
    cases p.bin with
    | none => rfl
    | some b => cases hty : p.type <;> simp_all [recognized, request_filters]
  · rw [as_query_toclquery_eq query h, as_query_toclquery_eq _ hwf2, htr]
  · rw [as_query_toclquery_eq query h, Option.map_some', hfilters]

/-- C9, at `unknown_kind_query`: the clause of unknown kind between `name == "ann"` and
`5 <= age <= 10` gives no filter and the range clause after it is still translated. -/
theorem unrecognized_clauses_are_skipped_witness :
    well_formed unknown_kind_query = true
    ∧ ((as_query_toclquery unknown_kind_query).isSome = true
      ∧ (∀ p ∈ visited_predicates unknown_kind_query.predicates,
          recognized p.type = false → emitted_filters p = [])
      ∧ (as_query_toclquery unknown_kind_query).map request_filters
          = (as_query_toclquery
              { unknown_kind_query with
                predicates := [name_equals_ann, age_5_to_10, end_of_predicates] }).map
              request_filters
      ∧ (as_query_toclquery unknown_kind_query).map request_filters
          = some [⟨"name", cl_query_op.CL_EQ, cl_type.CL_STR,
                    [cl_where_arg.string (some "ann")]⟩,
                  ⟨"age", cl_query_op.CL_RANGE, cl_type.CL_INT,
                    [cl_where_arg.integer 5, cl_where_arg.integer 10]⟩]) :=
  ⟨rfl, unrecognized_clauses_are_skipped unknown_kind_query rfl⟩

/-! ## Lifecycle and executors: the claims -/

/-- C6: from a state whose counter is 0, two calls of `aerospike_query_init` in sequence
perform the setup `citrusleaf_query_init` exactly once. The first call returns
`AEROSPIKE_OK`, records one setup call and leaves the counter positive; the second call
returns `AEROSPIKE_OK` and changes neither the state nor the error object. -/
theorem init_twice_sets_up_once (as1 as2 : aerospike) (err : as_error) (w : World)
    (h : w.query_initialized = 0) :
    (aerospike_query_init as1 err w).1 = as_status.AEROSPIKE_OK
    ∧ (aerospike_query_init as1 err w).2.2.calls = w.calls ++ [cl_call.citrusleaf_query_init]
    ∧ 0 < (aerospike_query_init as1 err w).2.2.query_initialized
    ∧ (aerospike_query_init as2 (aerospike_query_init as1 err w).2.1
          (aerospike_query_init as1 err w).2.2).1 = as_status.AEROSPIKE_OK
    ∧ (aerospike_query_init as2 (aerospike_query_init as1 err w).2.1
          (aerospike_query_init as1 err w).2.2).2
        = (aerospike_query_init as1 err w).2
    ∧ setups (aerospike_query_init as2 (aerospike_query_init as1 err w).2.1
          (aerospike_query_init as1 err w).2.2).2.2.calls = setups w.calls + 1 := by
  have h1 : aerospike_query_init as1 err w
      = (as_status.AEROSPIKE_OK, err, citrusleaf_query_init w) := by
    simp [aerospike_query_init, h]
  have h2 : aerospike_query_init as2 err (citrusleaf_query_init w)
      = (as_status.AEROSPIKE_OK, err, citrusleaf_query_init w) := by
    simp [aerospike_query_init, citrusleaf_query_init]
  rw [h1]
  simp only [h2]
  simp [citrusleaf_query_init, setups]

/-- C6, at `fresh_world`: after the two calls exactly one setup call is recorded. -/
theorem init_twice_sets_up_once_witness :
    fresh_world.query_initialized = 0
    ∧ (aerospike_query_init sample_connection clean_error fresh_world).1
        = as_status.AEROSPIKE_OK
    ∧ (aerospike_query_init sample_connection clean_error fresh_world).2.2.calls
        = fresh_world.calls ++ [cl_call.citrusleaf_query_init]
    ∧ 0 < (aerospike_query_init sample_connection clean_error fresh_world).2.2.query_initialized
    ∧ (aerospike_query_init sample_connection
          (aerospike_query_init sample_connection clean_error fresh_world).2.1
          (aerospike_query_init sample_connection clean_error fresh_world).2.2).1
        = as_status.AEROSPIKE_OK
    ∧ (aerospike_query_init sample_connection
          (aerospike_query_init sample_connection clean_error fresh_world).2.1
          (aerospike_query_init sample_connection clean_error fresh_world).2.2).2
        = (aerospike_query_init sample_connection clean_error fresh_world).2
    ∧ setups (aerospike_query_init sample_connection
          (aerospike_query_init sample_connection clean_error fresh_world).2.1
          (aerospike_query_init sample_connection clean_error fresh_world).2.2).2.2.calls
        = setups fresh_world.calls + 1 :=
  ⟨rfl, init_twice_sets_up_once sample_connection sample_connection clean_error fresh_world rfl⟩

/-- A lifecycle step that returns a status other than `AEROSPIKE_OK` without storing it
in the error object, against the documented use of `err`, has the bodies return the code
the error object held before: the hypothesis on the error object in the theorem that
follows is needed. -/
theorem unreported_status_is_not_returned :
    (silent_failing_step sample_connection clean_error fresh_world).1 = as_status.error 1
    ∧ (query_foreach_body silent_failing_step failing_transport sample_connection clean_error
          none plain_query 0 0 fresh_world).map (fun r => r.status)
        = some as_status.AEROSPIKE_OK
    ∧ (query_stream_body silent_failing_step failing_transport sample_connection clean_error
          none plain_query 0 fresh_world).map (fun r => r.status)
        = some as_status.AEROSPIKE_OK := by
  decide

/-- C8: whenever the lifecycle step returns `AEROSPIKE_OK`, on a well-formed descriptor
each executor returns `AEROSPIKE_OK` whatever code the transport returns: the code of the
transport ends in the local `rc` and the returned status does not depend on it. -/
theorem dispatch_code_is_swallowed (init : lifecycle_step) (T : Transport)
    (as : aerospike) (err : as_error) (policy : Option as_policy_query) (query : as_query)
    (callback udata stream : Nat) (w : World)
    (hinit : (init as err w).1 = as_status.AEROSPIKE_OK)
    (hwf : well_formed query = true) :
    (query_foreach_body init T as err policy query callback udata w).map
        (fun r => (r.status, r.rc))
      = some (as_status.AEROSPIKE_OK,
          some (T.citrusleaf_query_foreach as.cluster (translation query) udata callback))
    ∧ (query_stream_body init T as err policy query stream w).map
        (fun r => (r.status, r.rc))
      = some (as_status.AEROSPIKE_OK,
          some (T.citrusleaf_query_stream as.cluster (translation query) stream)) := by
  unfold query_foreach_body query_stream_body
  simp [hinit, as_query_toclquery_eq query hwf]

/-- C8, at the executors proper (lifecycle step `aerospike_query_init`) with
`failing_transport`, whose entry points return -1: both return `AEROSPIKE_OK`. -/
theorem dispatch_code_is_swallowed_witness :
    ((aerospike_query_init sample_connection clean_error fresh_world).1
        = as_status.AEROSPIKE_OK
      ∧ well_formed full_query = true)
    ∧ (aerospike_query_foreach failing_transport sample_connection clean_error none
          full_query 0 0 fresh_world).map (fun r => (r.status, r.rc))
        = some (as_status.AEROSPIKE_OK, some (-1))
    ∧ (aerospike_query_stream failing_transport sample_connection clean_error none
          full_query 0 fresh_world).map (fun r => (r.status, r.rc))
        = some (as_status.AEROSPIKE_OK, some (-1)) :=
  ⟨⟨rfl, rfl⟩,
   dispatch_code_is_swallowed aerospike_query_init failing_transport sample_connection
     clean_error none full_query 0 0 0 fresh_world rfl rfl⟩

theorem aerospike_query_init_status (as : aerospike) (err : as_error) (w : World) :
    (aerospike_query_init as err w).1 = as_status.AEROSPIKE_OK
    ∧ (aerospike_query_init as err w).2.1 = err := by
  unfold aerospike_query_init
  split <;> exact ⟨rfl, rfl⟩

theorem setups_citrusleaf_query_init (w : World) :
    setups (citrusleaf_query_init w).calls = setups w.calls + 1
    ∧ shutdowns (citrusleaf_query_init w).calls = shutdowns w.calls := by
  simp [citrusleaf_query_init, setups, shutdowns]

theorem shutdowns_citrusleaf_query_shutdown (w : World) :
    shutdowns (citrusleaf_query_shutdown w).calls = shutdowns w.calls + 1
    ∧ setups (citrusleaf_query_shutdown w).calls = setups w.calls := by
  simp [citrusleaf_query_shutdown, setups, shutdowns]

/-- C11: `aerospike_query_destroy` returns `AEROSPIKE_OK` in every state. With the counter
at 0 it leaves the state as it is, so no shutdown is performed. With the counter not 0 it
records one `citrusleaf_query_shutdown` call and leaves the counter at 0. In both cases a
second call right after changes nothing and returns `AEROSPIKE_OK`. -/
theorem destroy_shuts_down_once (as1 as2 : aerospike) (err : as_error) (w : World) :
    (aerospike_query_destroy as1 err w).1 = as_status.AEROSPIKE_OK
    ∧ (w.query_initialized = 0 → (aerospike_query_destroy as1 err w).2.2 = w)
    ∧ (w.query_initialized ≠ 0 →
        (aerospike_query_destroy as1 err w).2.2.calls
            = w.calls ++ [cl_call.citrusleaf_query_shutdown]
        ∧ shutdowns (aerospike_query_destroy as1 err w).2.2.calls = shutdowns w.calls + 1
        ∧ (aerospike_query_destroy as1 err w).2.2.query_initialized = 0)
    ∧ aerospike_query_destroy as2 (aerospike_query_destroy as1 err w).2.1
          (aerospike_query_destroy as1 err w).2.2
        = (as_status.AEROSPIKE_OK, (aerospike_query_destroy as1 err w).2.1,
            (aerospike_query_destroy as1 err w).2.2) := by
  by_cases h : w.query_initialized = 0
  · have h1 : aerospike_query_destroy as1 err w = (as_status.AEROSPIKE_OK, err, w) := by
      simp [aerospike_query_destroy, h]
    have h2 : aerospike_query_destroy as2 err w = (as_status.AEROSPIKE_OK, err, w) := by
      simp [aerospike_query_destroy, h]
    rw [h1]
    exact ⟨rfl, fun _ => rfl, fun hne => absurd h hne, h2⟩
  · have h1 : aerospike_query_destroy as1 err w
        = (as_status.AEROSPIKE_OK, err, citrusleaf_query_shutdown w) := by
      simp [aerospike_query_destroy, h]
    have h2 : aerospike_query_destroy as2 err (citrusleaf_query_shutdown w)
        = (as_status.AEROSPIKE_OK, err, citrusleaf_query_shutdown w) := by
      simp [aerospike_query_destroy, citrusleaf_query_shutdown]
    rw [h1]
    refine ⟨rfl, fun h0 => absurd h0 h, fun _ => ⟨rfl, ?_, rfl⟩, h2⟩
    exact (shutdowns_citrusleaf_query_shutdown w).1

/-- C11, at `initialized_world` (counter 1): one shutdown call is recorded, the counter
ends at 0 and a second call changes nothing. -/
theorem destroy_shuts_down_once_witness :
    initialized_world.query_initialized ≠ 0
    ∧ (aerospike_query_destroy sample_connection clean_error initialized_world).2.2
        = ⟨0, [cl_call.citrusleaf_query_init, cl_call.citrusleaf_query_shutdown]⟩
    ∧ shutdowns (aerospike_query_destroy sample_connection clean_error
          initialized_world).2.2.calls = shutdowns initialized_world.calls + 1
    ∧ aerospike_query_destroy sample_connection
          (aerospike_query_destroy sample_connection clean_error initialized_world).2.1
          (aerospike_query_destroy sample_connection clean_error initialized_world).2.2
        = (as_status.AEROSPIKE_OK,
            (aerospike_query_destroy sample_connection clean_error initialized_world).2.1,
            (aerospike_query_destroy sample_connection clean_error initialized_world).2.2) :=
  ⟨by decide, rfl,
   ((destroy_shuts_down_once sample_connection sample_connection clean_error
      initialized_world).2.2.1 (by decide)).2.1,
   (destroy_shuts_down_once sample_connection sample_connection clean_error
      initialized_world).2.2.2⟩

/-- C14: with the counter greater than 0, `aerospike_query_init` returns `AEROSPIKE_OK`
and leaves the error object and the whole state as they were: the counter is unchanged and
no `citrusleaf_query_init` call is recorded. -/
theorem init_is_noop_when_initialized (as : aerospike) (err : as_error) (w : World)
    (h : 0 < w.query_initialized) :
    aerospike_query_init as err w = (as_status.AEROSPIKE_OK, err, w)
    ∧ (aerospike_query_init as err w).2.2.query_initialized = w.query_initialized
    ∧ setups (aerospike_query_init as err w).2.2.calls = setups w.calls := by
  have h1 : aerospike_query_init as err w = (as_status.AEROSPIKE_OK, err, w) := by
    simp [aerospike_query_init, h]
  rw [h1]
  exact ⟨rfl, rfl, rfl⟩

/-- C14, at `initialized_world` (counter 1). -/
theorem init_is_noop_when_initialized_witness :
    0 < initialized_world.query_initialized
    ∧ aerospike_query_init sample_connection clean_error initialized_world
        = (as_status.AEROSPIKE_OK, clean_error, initialized_world)
    ∧ (aerospike_query_init sample_connection clean_error
          initialized_world).2.2.query_initialized = initialized_world.query_initialized
    ∧ setups (aerospike_query_init sample_connection clean_error initialized_world).2.2.calls
        = setups initialized_world.calls :=
  ⟨by decide,
   init_is_noop_when_initialized sample_connection clean_error initialized_world (by decide)⟩

/-- C18: for every value of the counter exactly one of the two lifecycle functions acts.
`aerospike_query_init` performs the setup (one more `citrusleaf_query_init` call
recorded) exactly when the counter is 0, `aerospike_query_destroy` performs the shutdown
(one more `citrusleaf_query_shutdown` call recorded) exactly when the counter is not 0,
so the one acts exactly when the other does not. -/
theorem guards_partition_counter (as1 as2 : aerospike) (err1 err2 : as_error) (w : World) :
    (setups (aerospike_query_init as1 err1 w).2.2.calls = setups w.calls + 1
        ↔ w.query_initialized = 0)
    ∧ (shutdowns (aerospike_query_destroy as2 err2 w).2.2.calls = shutdowns w.calls + 1
        ↔ w.query_initialized ≠ 0)
    ∧ (setups (aerospike_query_init as1 err1 w).2.2.calls = setups w.calls + 1
        ↔ ¬ shutdowns (aerospike_query_destroy as2 err2 w).2.2.calls
              = shutdowns w.calls + 1) := by
  by_cases h : w.query_initialized = 0
  · have hi : aerospike_query_init as1 err1 w
        = (as_status.AEROSPIKE_OK, err1, citrusleaf_query_init w) := by
      simp [aerospike_query_init, h]
    have hd : aerospike_query_destroy as2 err2 w = (as_status.AEROSPIKE_OK, err2, w) := by
      simp [aerospike_query_destroy, h]
    rw [hi, hd]
    simp [h, (setups_citrusleaf_query_init w).1]
  · have hpos : 0 < w.query_initialized := Nat.pos_of_ne_zero h
    have hi : aerospike_query_init as1 err1 w = (as_status.AEROSPIKE_OK, err1, w) := by
      simp [aerospike_query_init, hpos]
    have hd : aerospike_query_destroy as2 err2 w
        = (as_status.AEROSPIKE_OK, err2, citrusleaf_query_shutdown w) := by
      simp [aerospike_query_destroy, h]
    rw [hi, hd]
    simp [h, (shutdowns_citrusleaf_query_shutdown w).1]

theorem query_foreach_body_ok (init : lifecycle_step) (T : Transport) (as : aerospike)
    (err : as_error) (policy : Option as_policy_query) (query : as_query)
    (callback udata : Nat) (w : World)
    (hinit : (init as err w).1 = as_status.AEROSPIKE_OK)
    (hwf : well_formed query = true) :
    query_foreach_body init T as err policy query callback udata w
      = some ⟨as_status.AEROSPIKE_OK, (init as err w).2.1, some (translation query),
          some (T.citrusleaf_query_foreach as.cluster (translation query) udata callback),
          { (init as err w).2.2 with
            calls := (init as err w).2.2.calls ++
              [cl_call.citrusleaf_query_foreach as.cluster (translation query) udata
                callback] }⟩ := by
  unfold query_foreach_body
  simp [hinit, as_query_toclquery_eq query hwf]

theorem query_stream_body_ok (init : lifecycle_step) (T : Transport) (as : aerospike)
    (err : as_error) (policy : Option as_policy_query) (query : as_query)
    (stream : Nat) (w : World)
    (hinit : (init as err w).1 = as_status.AEROSPIKE_OK)
    (hwf : well_formed query = true) :
    query_stream_body init T as err policy query stream w
      = some ⟨as_status.AEROSPIKE_OK, (init as err w).2.1, some (translation query),
          some (T.citrusleaf_query_stream as.cluster (translation query) stream),
          { (init as err w).2.2 with
            calls := (init as err w).2.2.calls ++
              [cl_call.citrusleaf_query_stream as.cluster (translation query) stream] }⟩ := by
  unfold query_stream_body
  simp [hinit, as_query_toclquery_eq query hwf]

theorem dispatches_append_foreach (calls : List cl_call) (cluster : Nat) (clquery : cl_query)
    (udata callback : Nat) :
    dispatches (calls ++ [cl_call.citrusleaf_query_foreach cluster clquery udata callback])
      = dispatches calls ++ [cl_call.citrusleaf_query_foreach cluster clquery udata callback] := by
  simp [dispatches, List.filter_append]

theorem dispatches_append_stream (calls : List cl_call) (cluster : Nat) (clquery : cl_query)
    (stream : Nat) :
    dispatches (calls ++ [cl_call.citrusleaf_query_stream cluster clquery stream])
      = dispatches calls ++ [cl_call.citrusleaf_query_stream cluster clquery stream] := by
  simp [dispatches, List.filter_append]

/-- C17: `aerospike_query_init` returns `AEROSPIKE_OK` in every state and leaves the error
object as it was. Hence neither executor ever returns through its failure branch: an
outcome always has status `AEROSPIKE_OK` and a translated request; and on a well-formed
descriptor each executor returns `AEROSPIKE_OK`, has translated the descriptor and has
added exactly one dispatch to the calls recorded after the lifecycle step, for every
connection, state and transport. -/
theorem init_never_fails (T : Transport) (as : aerospike) (err : as_error)
    (policy : Option as_policy_query) (query : as_query) (callback udata stream : Nat)
    (w : World) :
    ((aerospike_query_init as err w).1 = as_status.AEROSPIKE_OK
      ∧ (aerospike_query_init as err w).2.1 = err)
    ∧ (∀ r, aerospike_query_foreach T as err policy query callback udata w = some r →
        r.status = as_status.AEROSPIKE_OK ∧ r.err = err ∧ r.clquery.isSome = true)
    ∧ (∀ r, aerospike_query_stream T as err policy query stream w = some r →
        r.status = as_status.AEROSPIKE_OK ∧ r.err = err ∧ r.clquery.isSome = true)
    ∧ (well_formed query = true →
        (aerospike_query_foreach T as err policy query callback udata w).map
            (fun r => (r.status, r.clquery, dispatches r.world.calls))
          = some (as_status.AEROSPIKE_OK, as_query_toclquery query,
              dispatches (aerospike_query_init as err w).2.2.calls ++
                [cl_call.citrusleaf_query_foreach as.cluster (translation query) udata
                  callback])
        ∧ (aerospike_query_stream T as err policy query stream w).map
            (fun r => (r.status, r.clquery, dispatches r.world.calls))
          = some (as_status.AEROSPIKE_OK, as_query_toclquery query,
              dispatches (aerospike_query_init as err w).2.2.calls ++
                [cl_call.citrusleaf_query_stream as.cluster (translation query) stream])) := by
  obtain ⟨hok, herr⟩ := aerospike_query_init_status as err w
  refine ⟨⟨hok, herr⟩, ?_, ?_, ?_⟩
  · intro r hr
    unfold aerospike_query_foreach query_foreach_body at hr
    cases htr : as_query_toclquery query with
    | none => simp [hok, htr] at hr
    | some clquery =>
      simp only [hok, htr, ne_eq, not_true_eq_false, if_false, Option.some.injEq] at hr
      subst hr
      exact ⟨rfl, herr, rfl⟩
  · intro r hr
    unfold aerospike_query_stream query_stream_body at hr
    cases htr : as_query_toclquery query with
    | none => simp [hok, htr] at hr
    | some clquery =>
      simp only [hok, htr, ne_eq, not_true_eq_false, if_false, Option.some.injEq] at hr
      subst hr
      exact ⟨rfl, herr, rfl⟩
  · intro hwf
    unfold aerospike_query_foreach aerospike_query_stream
    rw [query_foreach_body_ok aerospike_query_init T as err policy query callback udata w
        hok hwf,
      query_stream_body_ok aerospike_query_init T as err policy query stream w hok hwf,
      as_query_toclquery_eq query hwf]
    simp only [Option.map_some', dispatches_append_foreach, dispatches_append_stream,
      and_self]

/-- C17, at `full_query` from `fresh_world` with `failing_transport`: both executors
return `AEROSPIKE_OK` and record one dispatch. -/
theorem init_never_fails_witness :
    well_formed full_query = true
    ∧ (aerospike_query_foreach failing_transport sample_connection clean_error none
          full_query 0 0 fresh_world).map
            (fun r => (r.status, r.clquery, dispatches r.world.calls))
        = some (as_status.AEROSPIKE_OK, as_query_toclquery full_query,
            dispatches (aerospike_query_init sample_connection clean_error
                fresh_world).2.2.calls ++
              [cl_call.citrusleaf_query_foreach sample_connection.cluster
                (translation full_query) 0 0])
    ∧ (aerospike_query_stream failing_transport sample_connection clean_error none
          full_query 0 fresh_world).map
            (fun r => (r.status, r.clquery, dispatches r.world.calls))
        = some (as_status.AEROSPIKE_OK, as_query_toclquery full_query,
            dispatches (aerospike_query_init sample_connection clean_error
                fresh_world).2.2.calls ++
              [cl_call.citrusleaf_query_stream sample_connection.cluster
                (translation full_query) 0]) :=
  ⟨rfl,
   (init_never_fails failing_transport sample_connection clean_error none full_query 0 0 0
      fresh_world).2.2.2 rfl⟩

/-- C13: the two executors agree up to the delivery mode. For every descriptor and every
state they return the same status, leave the same error object, the same request and the
same counter; on a well-formed descriptor both return `AEROSPIKE_OK` with the request
`as_query_toclquery` gives, and each adds exactly one call to the calls recorded after the
same lifecycle step: `citrusleaf_query_foreach` with callback and user-data for the one,
`citrusleaf_query_stream` with the stream for the other, both with the same cluster
handle and the same request. -/
theorem stream_matches_foreach (T : Transport) (as : aerospike) (err : as_error)
    (policy : Option as_policy_query) (query : as_query) (callback udata stream : Nat)
    (w : World) :
    (aerospike_query_foreach T as err policy query callback udata w).map
        (fun r => (r.status, r.err, r.clquery, r.world.query_initialized))
      = (aerospike_query_stream T as err policy query stream w).map
        (fun r => (r.status, r.err, r.clquery, r.world.query_initialized))
    ∧ (well_formed query = true →
        (aerospike_query_foreach T as err policy query callback udata w).map
            (fun r => (r.status, r.clquery, r.world.calls))
          = some (as_status.AEROSPIKE_OK, as_query_toclquery query,
              (aerospike_query_init as err w).2.2.calls ++
                [cl_call.citrusleaf_query_foreach as.cluster (translation query) udata
                  callback])
        ∧ (aerospike_query_stream T as err policy query stream w).map
            (fun r => (r.status, r.clquery, r.world.calls))
          = some (as_status.AEROSPIKE_OK, as_query_toclquery query,
              (aerospike_query_init as err w).2.2.calls ++
                [cl_call.citrusleaf_query_stream as.cluster (translation query) stream])) := by
  obtain ⟨hok, _⟩ := aerospike_query_init_status as err w
  refine ⟨?_, ?_⟩
  · unfold aerospike_query_foreach aerospike_query_stream query_foreach_body
      query_stream_body
    cases htr : as_query_toclquery query <;> simp [hok]
  · intro hwf
    unfold aerospike_query_foreach aerospike_query_stream
    rw [query_foreach_body_ok aerospike_query_init T as err policy query callback udata w
        hok hwf,
      query_stream_body_ok aerospike_query_init T as err policy query stream w hok hwf,
      as_query_toclquery_eq query hwf]
    simp only [Option.map_some', and_self]

/-- C13, at `full_query` from `fresh_world`: the calls recorded by the two executors are
the setup followed by one dispatch, and differ in the dispatch entry point only. -/
theorem stream_matches_foreach_witness :
    well_formed full_query = true
    ∧ (aerospike_query_foreach failing_transport sample_connection clean_error none
          full_query 5 6 fresh_world).map (fun r => (r.status, r.clquery, r.world.calls))
        = some (as_status.AEROSPIKE_OK, as_query_toclquery full_query,
            [cl_call.citrusleaf_query_init,
             cl_call.citrusleaf_query_foreach 1 (translation full_query) 6 5])
    ∧ (aerospike_query_stream failing_transport sample_connection clean_error none
          full_query 7 fresh_world).map (fun r => (r.status, r.clquery, r.world.calls))
        = some (as_status.AEROSPIKE_OK, as_query_toclquery full_query,
            [cl_call.citrusleaf_query_init,
             cl_call.citrusleaf_query_stream 1 (translation full_query) 7]) :=
  ⟨rfl,
   (stream_matches_foreach failing_transport sample_connection clean_error none full_query
      5 6 7 fresh_world).2 rfl⟩

theorem request_inits_translation (query : as_query) :
    request_inits (translation query) = [(query.namespace_, query.set)] := by
  unfold request_inits
  rw [filterMap_translation]
  have hpred : ∀ p : as_predicate, List.filterMap (fun c => match c with
        | cl_query_call.init ns set => some (ns, set)
        | _ => none) (predicate_calls p) = [] := by
    intro p
    unfold predicate_calls predicate_switch
    cases p.bin <;> cases p.type <;> simp [cl_query_where]
  have hord : ∀ o : as_orderby, List.filterMap (fun c => match c with
        | cl_query_call.init ns set => some (ns, set)
        | _ => none) (orderby_calls o) = [] := by
    intro o
    unfold orderby_calls
    cases o.bin <;> simp
  have hlim : List.filterMap (fun c => match c with
        | cl_query_call.init ns set => some (ns, set)
        | _ => none) (limit_calls query) = [] := by
    unfold limit_calls; split <;> simp
  have happ : List.filterMap (fun c => match c with
        | cl_query_call.init ns set => some (ns, set)
        | _ => none) (apply_calls query.apply) = [] := by
    unfold apply_calls apply_step
    cases query.apply.module <;> cases query.apply.function <;> simp [cl_query_aggregate]
  have hsel : ∀ l : List String, List.filterMap (fun c => match c with
        | cl_query_call.init ns set => some (ns, set)
        | _ => none) (l.map cl_query_call.select) = [] := by
    intro l; induction l <;> simp_all
  rw [flatMap_nil_of_forall _ _ hpred, flatMap_nil_of_forall _ _ hord, hlim, happ, hsel]
  simp

theorem matching_records_unfiltered (dataset : List as_record) (query : as_query)
    (ns : String) (hns : query.namespace_ = some ns) (hset : query.set = none)
    (hpred : visited_predicates query.predicates = [])
    (hlim : query.limit = UINT64_MAX) :
    matching_records dataset (translation query)
      = dataset.filter (fun r => decide (r.namespace_ = ns)) := by
  have hrow : request_row_limit (translation query) = none := by
    simp [request_row_limit, request_limits_translation, hlim]
  have hfil : request_filters (translation query) = [] := by
    simp [request_filters_translation, hpred]
  have hscope : ∀ r, in_scope (translation query) r = decide (r.namespace_ = ns) := by
    intro r
    simp [in_scope, request_inits_translation, hns, hset]
  unfold matching_records
  simp only [hrow, hfil, hscope, List.all_nil, Bool.and_true]

/-- C12: when the lifecycle step returns `AEROSPIKE_OK`, on a well-formed descriptor
`aerospike_query_foreach` adds exactly one call to the calls recorded after that step:
`citrusleaf_query_foreach` with the cluster handle of the connection, the request
`as_query_toclquery` gives for the descriptor, and the user-data and callback of the
caller. Hence, with a transport that invokes the callback once per matching record, a
descriptor on namespace "test" with no set, no visited predicate and the limit
`UINT64_MAX` gives one callback invocation per record of a dataset held in namespace
"test", with the callback and user-data of the caller: three for three records. -/
theorem foreach_dispatches_once (init : lifecycle_step) (T : Transport) (as : aerospike)
    (err : as_error) (policy : Option as_policy_query) (query : as_query)
    (callback udata : Nat) (w : World)
    (hinit : (init as err w).1 = as_status.AEROSPIKE_OK)
    (hwf : well_formed query = true) :
    as_query_toclquery query = some (translation query)
    ∧ (query_foreach_body init T as err policy query callback udata w).map
          (fun r => r.world.calls)
        = some ((init as err w).2.2.calls ++
            [cl_call.citrusleaf_query_foreach as.cluster (translation query) udata callback])
    ∧ (query_foreach_body init T as err policy query callback udata w).map
          (fun r => dispatches r.world.calls)
        = some (dispatches (init as err w).2.2.calls ++
            [cl_call.citrusleaf_query_foreach as.cluster (translation query) udata callback])
    ∧ ∀ dataset : List as_record,
        query.namespace_ = some "test" → query.set = none →
        visited_predicates query.predicates = [] → query.limit = UINT64_MAX →
        (∀ r ∈ dataset, r.namespace_ = "test") →
        callback_invocations dataset
            (cl_call.citrusleaf_query_foreach as.cluster (translation query) udata callback)
          = dataset.map (fun r => (⟨callback, r, udata⟩ : callback_invocation))
        ∧ (dataset.length = 3 →
            (callback_invocations dataset
              (cl_call.citrusleaf_query_foreach as.cluster (translation query) udata
                callback)).length = 3) := by
  have hbody := query_foreach_body_ok init T as err policy query callback udata w hinit hwf
  refine ⟨as_query_toclquery_eq query hwf, ?_, ?_, ?_⟩
  · rw [hbody]; rfl
  · rw [hbody]
    simp only [Option.map_some', dispatches_append_foreach]
  · intro dataset hns hset hpred hlim hdata
    have hall : dataset.filter (fun r => decide (r.namespace_ = "test")) = dataset := by
      rw [List.filter_eq_self]
      intro r hr
      simp [hdata r hr]
    have hinv : callback_invocations dataset
          (cl_call.citrusleaf_query_foreach as.cluster (translation query) udata callback)
        = dataset.map (fun r => (⟨callback, r, udata⟩ : callback_invocation)) := by
      simp only [callback_invocations,
        matching_records_unfiltered dataset query "test" hns hset hpred hlim, hall]
    refine ⟨hinv, ?_⟩
    intro hlen
    rw [hinv, List.length_map, hlen]

/-- C12, at `aerospike_query_foreach` on `plain_query` (namespace "test", no predicate,
limit `UINT64_MAX`) from `fresh_world`, with callback 5 and user-data 6 over
`three_records`: one dispatch is recorded after the setup and the callback is invoked
three times. -/
theorem foreach_dispatches_once_witness :
    ((aerospike_query_init sample_connection clean_error fresh_world).1
        = as_status.AEROSPIKE_OK
      ∧ well_formed plain_query = true)
    ∧ (aerospike_query_foreach failing_transport sample_connection clean_error none
          plain_query 5 6 fresh_world).map (fun r => r.world.calls)
        = some [cl_call.citrusleaf_query_init,
                cl_call.citrusleaf_query_foreach 1 (translation plain_query) 6 5]
    ∧ (callback_invocations three_records
          (cl_call.citrusleaf_query_foreach 1 (translation plain_query) 6 5)).length = 3 :=
  ⟨⟨rfl, rfl⟩,
   (foreach_dispatches_once aerospike_query_init failing_transport sample_connection
      clean_error none plain_query 5 6 fresh_world rfl rfl).2.1,
   ((foreach_dispatches_once aerospike_query_init failing_transport sample_connection
      clean_error none plain_query 5 6 fresh_world rfl rfl).2.2.2 three_records rfl rfl rfl rfl
      (by decide)).2 rfl⟩

/-! ## Translation: phase order and totality -/

theorem phase_limit_calls (query : as_query) : ∀ c ∈ limit_calls query, phase c = 1 := by
  intro c hc
  unfold limit_calls at hc
  split at hc <;> simp at hc
  subst hc; rfl

theorem phase_select_calls (bins : List String) :
    ∀ c ∈ bins.map cl_query_call.select, phase c = 2 := by
  intro c hc
  simp only [List.mem_map] at hc
  obtain ⟨b, _, rfl⟩ := hc
  rfl

theorem phase_predicate_calls (l : List as_predicate) :
    ∀ c ∈ l.flatMap predicate_calls, phase c = 3 := by
  intro c hc
  simp only [List.mem_flatMap] at hc
  obtain ⟨p, _, hcp⟩ := hc
  unfold predicate_calls predicate_switch at hcp
  cases hb : p.bin with
  | none => simp [hb] at hcp
  | some b =>
    cases hty : p.type <;> simp [hb, hty, cl_query_where] at hcp <;> subst hcp <;> rfl

theorem phase_orderby_calls (l : List as_orderby) :
    ∀ c ∈ l.flatMap orderby_calls, phase c = 4 := by
  intro c hc
  simp only [List.mem_flatMap] at hc
  obtain ⟨o, _, hco⟩ := hc
  unfold orderby_calls at hco
  cases hb : o.bin with
  | none => simp [hb] at hco
  | some b => simp [hb] at hco; subst hco; rfl

theorem phase_apply_calls (apply : as_udf_call) : ∀ c ∈ apply_calls apply, phase c = 5 := by
  intro c hc
  unfold apply_calls apply_step at hc
  cases hm : apply.module <;> cases hf : apply.function <;>
    simp [hm, hf, cl_query_aggregate] at hc
  subst hc; rfl

theorem pairwise_of_constant_phase (l : List cl_query_call) (k : Nat)
    (h : ∀ c ∈ l, phase c = k) : List.Pairwise (fun a b => phase a ≤ phase b) l := by
  induction l with
  | nil => exact List.Pairwise.nil
  | cons a as ih =>
    refine List.pairwise_cons.mpr ⟨?_, ih (fun c hc => h c (List.mem_cons_of_mem a hc))⟩
    intro b hb
    rw [h a (List.mem_cons_self a as), h b (List.mem_cons_of_mem a hb)]

theorem pairwise_phase_append (l1 l2 : List cl_query_call) (k : Nat)
    (h1 : List.Pairwise (fun a b => phase a ≤ phase b) l1) (hle : ∀ c ∈ l1, phase c < k)
    (h2 : ∀ c ∈ l2, phase c = k) :
    List.Pairwise (fun a b => phase a ≤ phase b) (l1 ++ l2)
    ∧ ∀ c ∈ l1 ++ l2, phase c < k + 1 := by
  refine ⟨List.pairwise_append.mpr ⟨h1, pairwise_of_constant_phase l2 k h2, ?_⟩, ?_⟩
  · intro a ha b hb
    have := hle a ha
    have := h2 b hb
    omega
  · intro c hc
    rcases List.mem_append.mp hc with hc | hc
    · have := hle c hc; omega
    · have := h2 c hc; omega

theorem translation_phase_order (query : as_query) :
    List.Pairwise (fun a b => phase a ≤ phase b) (translation query) := by
  have h0 : List.Pairwise (fun a b => phase a ≤ phase b)
        [cl_query_call.init query.namespace_ query.set]
      ∧ ∀ c ∈ [cl_query_call.init query.namespace_ query.set], phase c < 1 := by
    refine ⟨List.pairwise_singleton _ _, ?_⟩
    intro c hc
    simp only [List.mem_singleton] at hc
    subst hc
    exact Nat.lt_succ_self 0
  have h1 := pairwise_phase_append _ (limit_calls query) 1 h0.1 h0.2 (phase_limit_calls query)
  have h2 := pairwise_phase_append _ ((selected_bins query.select).map cl_query_call.select) 2
    h1.1 h1.2 (phase_select_calls _)
  have h3 := pairwise_phase_append _
    ((visited_predicates query.predicates).flatMap predicate_calls) 3 h2.1 h2.2
    (phase_predicate_calls _)
  have h4 := pairwise_phase_append _
    ((visited_orderby query.orderby).flatMap orderby_calls) 4 h3.1 h3.2
    (phase_orderby_calls _)
  have h5 := pairwise_phase_append _ (apply_calls query.apply) 5 h4.1 h4.2
    (phase_apply_calls _)
  have hshape : translation query
      = [cl_query_call.init query.namespace_ query.set] ++ limit_calls query
        ++ (selected_bins query.select).map cl_query_call.select
        ++ (visited_predicates query.predicates).flatMap predicate_calls
        ++ (visited_orderby query.orderby).flatMap orderby_calls
        ++ apply_calls query.apply := by
    unfold translation
    simp
  rw [hshape]
  exact h5.1

/-- C15: on a well-formed descriptor the builder calls of `as_query_toclquery` come in
the fixed phase order. The first call is the one initialization, with the namespace and
the set of the descriptor; there is at most one row-limit call and at most one
aggregation call; and along the whole sequence the phases (initialization, row limit,
projection, filters, sort keys, aggregation) never decrease, so no call of an earlier
phase follows a call of a later phase. -/
theorem calls_follow_phase_order (query : as_query) (h : well_formed query = true) :
    ∃ clquery : cl_query,
      as_query_toclquery query = some clquery
      ∧ clquery.head? = some (cl_query_call.init query.namespace_ query.set)
      ∧ request_inits clquery = [(query.namespace_, query.set)]
      ∧ (request_limits clquery).length ≤ 1
      ∧ (request_aggregations clquery).length ≤ 1
      ∧ List.Pairwise (fun a b => phase a ≤ phase b) clquery := by
  refine ⟨translation query, as_query_toclquery_eq query h, rfl,
    request_inits_translation query, ?_, ?_, translation_phase_order query⟩
  · rw [request_limits_translation]
    split <;> simp
  · rw [request_aggregations_translation]
    unfold apply_calls apply_step request_aggregations
    cases query.apply.module <;> cases query.apply.function <;> simp [cl_query_aggregate]

/-- C15, at `full_query`, which has a call in every phase. -/
theorem calls_follow_phase_order_witness :
    well_formed full_query = true
    ∧ (as_query_toclquery full_query).map (fun clquery => clquery.map phase)
        = some [0, 1, 2, 2, 3, 3, 3, 4, 4, 5]
    ∧ ∃ clquery : cl_query,
        as_query_toclquery full_query = some clquery
        ∧ clquery.head? = some (cl_query_call.init full_query.namespace_ full_query.set)
        ∧ request_inits clquery = [(full_query.namespace_, full_query.set)]
        ∧ (request_limits clquery).length ≤ 1
        ∧ (request_aggregations clquery).length ≤ 1
        ∧ List.Pairwise (fun a b => phase a ≤ phase b) clquery :=
  ⟨rfl, rfl, calls_follow_phase_order full_query rfl⟩

theorem select_loop_steps_eq (select : List (Option String)) :
    ∀ (clquery : cl_query) (steps : Nat),
      select_loop_steps select clquery steps
        = (select_loop select clquery).map
            (fun r => (r, steps + (visited_select select).length)) := by
  induction select with
  | nil => intro clquery steps; rfl
  | cons s rest ih =>
    intro clquery steps
    cases s with
    | none => simp [select_loop_steps, select_loop, visited_select]
    | some b =>
      simp only [select_loop_steps, select_loop, ih]
      simp [visited_select, Nat.add_assoc, Nat.add_comm 1]

theorem predicates_loop_steps_eq (predicates : List as_predicate) :
    ∀ (clquery : cl_query) (steps : Nat),
      predicates_loop_steps predicates clquery steps
        = (predicates_loop predicates clquery).map
            (fun r => (r, steps + (visited_predicates predicates).length)) := by
  induction predicates with
  | nil => intro clquery steps; rfl
  | cons p rest ih =>
    intro clquery steps
    cases hb : p.bin with
    | none => simp [predicates_loop_steps, predicates_loop, visited_predicates, hb]
    | some b =>
      simp only [predicates_loop_steps, predicates_loop, hb, ih]
      simp [visited_predicates, hb, Nat.add_assoc, Nat.add_comm 1]

theorem orderby_loop_steps_eq (orderby : List as_orderby) :
    ∀ (clquery : cl_query) (steps : Nat),
      orderby_loop_steps orderby clquery steps
        = (orderby_loop orderby clquery).map
            (fun r => (r, steps + (visited_orderby orderby).length)) := by
  induction orderby with
  | nil => intro clquery steps; rfl
  | cons o rest ih =>
    intro clquery steps
    cases hb : o.bin with
    | none => simp [orderby_loop_steps, orderby_loop, visited_orderby, hb]
    | some b =>
      simp only [orderby_loop_steps, orderby_loop, hb, ih]
      simp [visited_orderby, hb, Nat.add_assoc, Nat.add_comm 1]

/-- C16: on a descriptor whose three arrays each contain their terminator, each of the
three walks ends, from any request, after exactly as many executions of its body as
there are entries stored before the first terminator, with the same request as the
walk of `as_query_toclquery`; and `as_query_toclquery` returns a request. -/
theorem translation_is_total (query : as_query) (h : well_formed query = true) :
    (∀ clquery : cl_query, ∃ r,
        select_loop query.select clquery = some r
        ∧ select_loop_steps query.select clquery 0
            = some (r, (visited_select query.select).length))
    ∧ (∀ clquery : cl_query, ∃ r,
        predicates_loop query.predicates clquery = some r
        ∧ predicates_loop_steps query.predicates clquery 0
            = some (r, (visited_predicates query.predicates).length))
    ∧ (∀ clquery : cl_query, ∃ r,
        orderby_loop query.orderby clquery = some r
        ∧ orderby_loop_steps query.orderby clquery 0
            = some (r, (visited_orderby query.orderby).length))
    ∧ (as_query_toclquery query).isSome = true := by
  have hparts := h
  simp only [well_formed, Bool.and_eq_true] at hparts
  obtain ⟨⟨hs, hp⟩, ho⟩ := hparts
  refine ⟨?_, ?_, ?_, ?_⟩
  · intro clquery
    refine ⟨_, select_loop_eq _ clquery hs, ?_⟩
    rw [select_loop_steps_eq, select_loop_eq _ clquery hs]
    simp
  · intro clquery
    refine ⟨_, predicates_loop_eq _ clquery hp, ?_⟩
    rw [predicates_loop_steps_eq, predicates_loop_eq _ clquery hp]
    simp
  · intro clquery
    refine ⟨_, orderby_loop_eq _ clquery ho, ?_⟩
    rw [orderby_loop_steps_eq, orderby_loop_eq _ clquery ho]
    simp
  · rw [as_query_toclquery_eq query h]; rfl

/-- C16, at `full_query`: from the empty request the three walks take 2, 3 and 2 steps,
and the translation returns a request. -/
theorem translation_is_total_witness :
    well_formed full_query = true
    ∧ (select_loop_steps full_query.select [] 0).map Prod.snd = some 2
    ∧ (predicates_loop_steps full_query.predicates [] 0).map Prod.snd = some 3
    ∧ (orderby_loop_steps full_query.orderby [] 0).map Prod.snd = some 2
    ∧ (as_query_toclquery full_query).isSome = true :=
  ⟨rfl, rfl, rfl, rfl, (translation_is_total full_query rfl).2.2.2⟩

end AerospikeQuery
